import Mathlib

/-!
Verification of the LLM-orchestration and resilient-call pipeline of the
AI-powered Test-of-Design control analysis tool
(`tod_control_testing_v21_enhanced.py`).

The Python source is shallowly embedded below.  The embedding conventions:

* The LLM service (an `openai` client) is modelled as a deterministic stub
  `Client : String → String → Nat → LLMOutcome`: given the system message,
  the user prompt and the 0-based attempt number it either succeeds with
  the response text or fails with the textual rendering of the raised
  exception (`str(e)`), which is all the source ever inspects.
* Python exceptions raised by the analysed code itself (attribute errors
  on non-dict parse results, ...) are modelled with `Except PyErr`.
* Floating-point delay settings (`RETRY_DELAY = 1.0`, `MAX_RETRY_DELAY =
  60.0`) are integral and all arithmetic the source performs on them
  (`* 2**attempt`, `min`) is exact in IEEE doubles at the relevant
  magnitudes, so delays are embedded as `Nat` seconds.
* The retry settings are passed as an explicit `RetryConfig` record; the
  source reads them from the `Config` class, whose shipped values are
  `configDefaults` below (spec §6 treats them as external configuration).
-/

/-! ### Character-list string utilities

The source uses `str.lower`, `str.strip`, `str.startswith` and the `in`
substring test.  They are re-implemented here by structural recursion on
the underlying character list so that every definition reduces inside the
kernel. -/

/-- Characters stripped by Python `str.strip()` (ASCII whitespace). -/
def pyWs (c : Char) : Bool :=
  c = ' ' || c = '\t' || c = '\n' || c = '\r' || c = '\x0b' || c = '\x0c'

/-- `str.lower` (ASCII; the source only compares ASCII keywords). -/
def lowerStr (s : String) : String :=
  ⟨s.data.map Char.toLower⟩

/-- `str.strip()`: drop leading and trailing whitespace. -/
def pyStrip (s : String) : String :=
  ⟨((s.data.dropWhile pyWs).reverse.dropWhile pyWs).reverse⟩

/-- Does `pat` occur at the head of `l`? -/
def leadsWith : List Char → List Char → Bool
  | [], _ => true
  | _ :: _, [] => false
  | p :: ps, c :: cs => p = c && leadsWith ps cs

/-- Python `pat in s` substring test. -/
def containsSubL (pat : List Char) : List Char → Bool
  | [] => leadsWith pat []
  | c :: cs => leadsWith pat (c :: cs) || containsSubL pat cs

/-- Python `pat in s` on strings. -/
def containsSub (s pat : String) : Bool :=
  containsSubL pat.data s.data

/-- Python `s.startswith(pat)` on strings. -/
def startsWithStr (s pat : String) : Bool :=
  leadsWith pat.data s.data

/-- Python `s[n:]`. -/
def dropStr (s : String) (n : Nat) : String :=
  ⟨s.data.drop n⟩

/-! ### The LLM dependency and the resilient call executor

Embedding of `make_llm_call_with_retry` (source lines 194–227) and of the
connection-test loop of `initialize_client` (source lines 119–167). -/

/-- Outcome of one attempt of `client.chat.completions.create`: either the
response text (`response.choices[0].message.content`) or the lowering of
the raised exception to `str(e)`. -/
inductive LLMOutcome where
  | success (text : String)
  | failure (err : String)

/-- A deterministic stub for the OpenAI client: system message → user
prompt → 0-based attempt number → outcome. -/
def Client : Type := String → String → Nat → LLMOutcome

/-- Retry settings read from the `Config` class (spec §6: external
configuration). -/
structure RetryConfig where
  max_retries : Nat
  retry_delay : Nat
  max_retry_delay : Nat
deriving DecidableEq

/-- The shipped `Config` values: `MAX_RETRIES = 5`, `RETRY_DELAY = 1.0`,
`MAX_RETRY_DELAY = 60.0`. -/
def configDefaults : RetryConfig := ⟨5, 1, 60⟩

/-- Result of the retry loop: the returned text (`none` is Python `None`),
the number of attempts actually made, and the `(attempt, seconds)` pairs
passed to `time.sleep`, in order. -/
structure RetryResult where
  result : Option String
  attempts : Nat
  waits : List (Nat × Nat)
deriving DecidableEq

/-- `"429" in error_msg or "too many requests" in error_msg` (on the
lowered message). -/
def rateLimitMsg (m : String) : Bool :=
  containsSub m "429" || containsSub m "too many requests"

/-- `"401" in error_msg or "unauthorized" in error_msg`. -/
def authMsg (m : String) : Bool :=
  containsSub m "401" || containsSub m "unauthorized"

/-- `"404" in error_msg or "not found" in error_msg`. -/
def notFoundMsg (m : String) : Bool :=
  containsSub m "404" || containsSub m "not found"

/-- An error message on which the loop keeps retrying (rate-limit branch or
the generic backoff branch) rather than short-circuiting. -/
def retryableMsg (e : String) : Bool :=
  rateLimitMsg (lowerStr e) ||
    (!authMsg (lowerStr e) && !notFoundMsg (lowerStr e))

/-- A non-retryable (authentication / not-found) error message. -/
def nonRetryableMsg (e : String) : Bool :=
  !rateLimitMsg (lowerStr e) &&
    (authMsg (lowerStr e) || notFoundMsg (lowerStr e))

/-- The body of `for attempt in range(Config.MAX_RETRIES)` in
`make_llm_call_with_retry`.  `attempt` is the loop counter, `fuel` the
number of iterations left (`max_retries - attempt`), `acc` the sleeps
recorded so far (reversed).  On success the stripped text is returned at
once; `401/unauthorized` and `404/not found` return `None` immediately;
`429/too many requests` sleeps `min(delay * 2^attempt, max_delay)`;
any other error sleeps the uncapped `delay * 2^attempt` unless this was
the final attempt. -/
def retryGo (cfg : RetryConfig) (call : Nat → LLMOutcome) :
    Nat → Nat → List (Nat × Nat) → RetryResult
  | attempt, 0, acc => ⟨none, attempt, acc.reverse⟩
  | attempt, fuel + 1, acc =>
    match call attempt with
    | .success t => ⟨some (pyStrip t), attempt + 1, acc.reverse⟩
    | .failure e =>
      let m := lowerStr e
      if rateLimitMsg m then
        retryGo cfg call (attempt + 1) fuel
          ((attempt, min (cfg.retry_delay * 2 ^ attempt) cfg.max_retry_delay) :: acc)
      else if authMsg m then ⟨none, attempt + 1, acc.reverse⟩
      else if notFoundMsg m then ⟨none, attempt + 1, acc.reverse⟩
      else if attempt < cfg.max_retries - 1 then
        retryGo cfg call (attempt + 1) fuel
          ((attempt, cfg.retry_delay * 2 ^ attempt) :: acc)
      else
        retryGo cfg call (attempt + 1) fuel acc

/-- `make_llm_call_with_retry(client, prompt, system_content)` (source
lines 194–227). -/
def make_llm_call_with_retry (cfg : RetryConfig) (client : Client)
    (prompt system_content : String) : RetryResult :=
  retryGo cfg (client system_content prompt) 0 cfg.max_retries []

/-- Result of the `initialize_client` connection test: `ok = false` models
`sys.exit(1)` (fatal abort). -/
structure InitResult where
  ok : Bool
  attempts : Nat
  waits : List (Nat × Nat)
deriving DecidableEq

/-- The connection-test loop of `initialize_client` (source lines
119–167).  Same classification as the retry loop, but `401` / `404` and
exhaustion of the final attempt call `sys.exit(1)`, and so does falling
out of the loop (only reachable when the last attempt was rate-limited). -/
def initGo (cfg : RetryConfig) (call : Nat → LLMOutcome) :
    Nat → Nat → List (Nat × Nat) → InitResult
  | attempt, 0, acc => ⟨false, attempt, acc.reverse⟩
  | attempt, fuel + 1, acc =>
    match call attempt with
    | .success _ => ⟨true, attempt + 1, acc.reverse⟩
    | .failure e =>
      let m := lowerStr e
      if rateLimitMsg m then
        initGo cfg call (attempt + 1) fuel
          ((attempt, min (cfg.retry_delay * 2 ^ attempt) cfg.max_retry_delay) :: acc)
      else if authMsg m then ⟨false, attempt + 1, acc.reverse⟩
      else if notFoundMsg m then ⟨false, attempt + 1, acc.reverse⟩
      else if attempt < cfg.max_retries - 1 then
        initGo cfg call (attempt + 1) fuel
          ((attempt, cfg.retry_delay * 2 ^ attempt) :: acc)
      else ⟨false, attempt + 1, acc.reverse⟩

/-- The startup connection validation of `initialize_client`, given a stub
for the test call. -/
def init_client_test (cfg : RetryConfig) (call : Nat → LLMOutcome) : InitResult :=
  initGo cfg call 0 cfg.max_retries []

/-! ### JSON values and `json.loads`

`extract_json_from_response` feeds candidate text to `json.loads`; the
analysis functions then inspect the parsed value with Python truthiness,
`dict.get` and `dict.items`.  JSON values are embedded as a mutual
inductive (so that all recursions over them are structural and reduce in
the kernel).  A JSON number is embedded as the exact decimal `m * 10^e`
it is written as (`num m e`; an integer literal has `e = 0`), which keeps
every parse computable — Python would round non-integral values to binary
floating point, a difference no analysed behaviour observes, since the
code only ever tests numbers for zero-ness and renders them to text.  The
embedding does not model the `NaN`/`Infinity` extensions Python accepts,
which no analysed behaviour touches. -/

mutual
inductive Json where
  | null : Json
  | bool (b : Bool) : Json
  | num (m : Int) (e : Int) : Json
  | str (s : String) : Json
  | arr (elems : JsonArr) : Json
  | obj (kvs : JsonObj) : Json
inductive JsonArr where
  | nil : JsonArr
  | cons (hd : Json) (tl : JsonArr) : JsonArr
inductive JsonObj where
  | nil : JsonObj
  | cons (key : String) (val : Json) (tl : JsonObj) : JsonObj
end

deriving instance DecidableEq for Json

/-- First binding of `key`, if any (parsed objects carry unique keys). -/
def lookupKey (key : String) : JsonObj → Option Json
  | .nil => none
  | .cons k v tl => if k = key then some v else lookupKey key tl

/-- Python `dict` insertion: an existing key keeps its position and gets
the new value, a new key is appended. -/
def upsertKey (key : String) (v : Json) : JsonObj → JsonObj
  | .nil => .cons key v .nil
  | .cons k w tl =>
    if k = key then .cons k v tl else .cons k w (upsertKey key v tl)

/-- Python truthiness of a parsed JSON value (`if not data: ...`). -/
def pyTruthy : Json → Bool
  | .null => false
  | .bool b => b
  | .num m _ => m ≠ 0
  | .str s => s ≠ ""
  | .arr .nil => false
  | .arr (.cons _ _) => true
  | .obj .nil => false
  | .obj (.cons _ _ _) => true

/-! #### The recursive-descent model of `json.loads`

Structural recursion on an explicit fuel (the input length suffices),
over the character list.  Mirrors the strict-mode `json` module: only
`' '`, `'\t'`, `'\n'`, `'\r'` are skippable whitespace, strings reject
raw control characters and understand the standard escapes, numbers allow
an optional minus, a no-leading-zero integer part, fraction and exponent,
and the whole input must be consumed (`Extra data` otherwise). -/

/-- JSON whitespace. -/
def jsonWs (c : Char) : Bool :=
  c = ' ' || c = '\t' || c = '\n' || c = '\r'

/-- Skip JSON whitespace. -/
def skipWs : List Char → List Char
  | [] => []
  | c :: cs => if jsonWs c then skipWs cs else c :: cs

/-- Hex digit value. -/
def hexVal (c : Char) : Option Nat :=
  if '0' ≤ c ∧ c ≤ '9' then some (c.toNat - '0'.toNat)
  else if 'a' ≤ c ∧ c ≤ 'f' then some (c.toNat - 'a'.toNat + 10)
  else if 'A' ≤ c ∧ c ≤ 'F' then some (c.toNat - 'A'.toNat + 10)
  else none

/-- Parse exactly four hex digits. -/
def hex4 : List Char → Option (Nat × List Char)
  | a :: b :: c :: d :: rest => do
    let va ← hexVal a
    let vb ← hexVal b
    let vc ← hexVal c
    let vd ← hexVal d
    some (((va * 16 + vb) * 16 + vc) * 16 + vd, rest)
  | _ => none

/-- Body of a JSON string literal after the opening quote, accumulating
the decoded characters.  The first argument is fuel (one unit per decoded
character suffices, callers pass the input length plus one).  `\uXXXX`
surrogate pairs are combined; a lone surrogate (kept verbatim by Python)
is replaced, there being no such `Char`. -/
def parseStringBody : Nat → List Char → List Char → Option (String × List Char)
  | 0, _, _ => none
  | fuel + 1, acc, l =>
    match l with
    | [] => none
    | '"' :: rest => some (⟨acc.reverse⟩, rest)
    | '\\' :: e :: rest =>
      match e with
      | '"' => parseStringBody fuel ('"' :: acc) rest
      | '\\' => parseStringBody fuel ('\\' :: acc) rest
      | '/' => parseStringBody fuel ('/' :: acc) rest
      | 'b' => parseStringBody fuel ('\x08' :: acc) rest
      | 'f' => parseStringBody fuel ('\x0c' :: acc) rest
      | 'n' => parseStringBody fuel ('\n' :: acc) rest
      | 'r' => parseStringBody fuel ('\r' :: acc) rest
      | 't' => parseStringBody fuel ('\t' :: acc) rest
      | 'u' =>
        match hex4 rest with
        | none => none
        | some (n, rest1) =>
          if 0xd800 ≤ n ∧ n < 0xdc00 then
            match rest1 with
            | '\\' :: 'u' :: rest2 =>
              match hex4 rest2 with
              | some (n2, rest3) =>
                if 0xdc00 ≤ n2 ∧ n2 < 0xe000 then
                  parseStringBody fuel
                    (Char.ofNat (0x10000 + (n - 0xd800) * 0x400 + (n2 - 0xdc00)) :: acc) rest3
                else parseStringBody fuel ('�' :: acc) ('\\' :: 'u' :: rest2)
              | none => parseStringBody fuel ('�' :: acc) ('\\' :: 'u' :: rest2)
            | _ => parseStringBody fuel ('�' :: acc) rest1
          else if 0xdc00 ≤ n ∧ n < 0xe000 then
            parseStringBody fuel ('�' :: acc) rest1
          else
            parseStringBody fuel (Char.ofNat n :: acc) rest1
      | _ => none
    | c :: rest =>
      if c.toNat < 0x20 then none else parseStringBody fuel (c :: acc) rest

/-- Take a maximal run of decimal digits. -/
def takeDigits : List Char → List Nat × List Char
  | [] => ([], [])
  | c :: cs =>
    if c.isDigit then
      let (ds, rest) := takeDigits cs
      ((c.toNat - '0'.toNat) :: ds, rest)
    else ([], c :: cs)

/-- Digits to a natural number. -/
def digitsToNat (ds : List Nat) : Nat :=
  ds.foldl (fun acc d => acc * 10 + d) 0

/-- The exponent part after `e`/`E`, given the mantissa and the number of
fraction digits already consumed. -/
def parseExpTail (mant : Int) (fl : Nat) (rest : List Char) : Option (Json × List Char) :=
  let signRes : Option (Bool × List Char) :=
    match rest with
    | '-' :: srest => some (true, srest)
    | '+' :: srest => some (false, srest)
    | _ => some (false, rest)
  match signRes with
  | none => none
  | some (eneg, rest4) =>
    match rest4 with
    | c :: _ =>
      if c.isDigit then
        let (ds, rest5) := takeDigits rest4
        let ev : Int := (digitsToNat ds : Int)
        some (.num mant ((if eneg then -ev else ev) - (fl : Int)), rest5)
      else none
    | [] => none

/-- JSON number after an optional leading minus: integer part with no
leading zero, optional fraction, optional exponent; the value is kept as
the exact decimal pair `(mantissa, exponent)`. -/
def parseNumTail (neg : Bool) (cs : List Char) : Option (Json × List Char) :=
  let ipRes : Option (Nat × List Char) :=
    match cs with
    | '0' :: rest => some (0, rest)
    | c :: _ =>
      if c.isDigit then
        let (ds, rest) := takeDigits cs
        some (digitsToNat ds, rest)
      else none
    | [] => none
  match ipRes with
  | none => none
  | some (ip, rest1) =>
    let fracRes : Option ((Nat × Nat) × List Char) :=
      match rest1 with
      | '.' :: d :: frest =>
        if d.isDigit then
          let (ds, rest2) := takeDigits (d :: frest)
          some ((ip * 10 ^ ds.length + digitsToNat ds, ds.length), rest2)
        else none
      | _ => some ((ip, 0), rest1)
    match fracRes with
    | none => none
    | some ((m0, fl), rest2) =>
      let mant : Int := if neg then -(m0 : Int) else (m0 : Int)
      match rest2 with
      | 'e' :: erest => parseExpTail mant fl erest
      | 'E' :: erest => parseExpTail mant fl erest
      | _ => some (.num mant (-(fl : Int)), rest2)

/-- Append at the end of a `JsonArr`. -/
def jsonArrSnoc : JsonArr → Json → JsonArr
  | .nil, v => .cons v .nil
  | .cons h t, v => .cons h (jsonArrSnoc t v)

mutual
/-- Parse one JSON value.  Every (mutual) recursive call strictly consumes
fuel; `json_loads` supplies more fuel than any input can consume, so the
fuel never runs out on an actual parse. -/
def parseValue : Nat → List Char → Option (Json × List Char)
  | 0, _ => none
  | fuel + 1, cs =>
    match skipWs cs with
    | [] => none
    | c :: rest =>
      match c with
      | '\x7b' => parseObjStart fuel rest
      | '[' => parseArrStart fuel rest
      | '"' =>
        match parseStringBody (rest.length + 1) [] rest with
        | some (s, rest1) => some (.str s, rest1)
        | none => none
      | 't' =>
        if leadsWith ['r', 'u', 'e'] rest then some (.bool true, rest.drop 3) else none
      | 'f' =>
        if leadsWith ['a', 'l', 's', 'e'] rest then some (.bool false, rest.drop 4) else none
      | 'n' =>
        if leadsWith ['u', 'l', 'l'] rest then some (.null, rest.drop 3) else none
      | '-' => parseNumTail true rest
      | _ =>
        if c.isDigit then parseNumTail false (c :: rest) else none

/-- Object members after `{`. -/
def parseObjStart : Nat → List Char → Option (Json × List Char)
  | 0, _ => none
  | fuel + 1, cs =>
    match skipWs cs with
    | '\x7d' :: rest => some (.obj .nil, rest)
    | cs1 => parseMembers fuel .nil cs1

/-- One `"key": value` member then `,` or `}`. -/
def parseMembers : Nat → JsonObj → List Char → Option (Json × List Char)
  | 0, _, _ => none
  | fuel + 1, acc, cs =>
    match skipWs cs with
    | '"' :: rest =>
      match parseStringBody (rest.length + 1) [] rest with
      | none => none
      | some (k, rest1) =>
        match skipWs rest1 with
        | ':' :: rest2 =>
          match parseValue fuel rest2 with
          | none => none
          | some (v, rest3) =>
            match skipWs rest3 with
            | ',' :: rest4 => parseMembers fuel (upsertKey k v acc) rest4
            | '\x7d' :: rest4 => some (.obj (upsertKey k v acc), rest4)
            | _ => none
        | _ => none
    | _ => none

/-- Array elements after `[`. -/
def parseArrStart : Nat → List Char → Option (Json × List Char)
  | 0, _ => none
  | fuel + 1, cs =>
    match skipWs cs with
    | ']' :: rest => some (.arr .nil, rest)
    | cs1 => parseElems fuel .nil cs1

/-- One array element then `,` or `]`. -/
def parseElems : Nat → JsonArr → List Char → Option (Json × List Char)
  | 0, _, _ => none
  | fuel + 1, acc, cs =>
    match parseValue fuel cs with
    | none => none
    | some (v, rest) =>
      match skipWs rest with
      | ',' :: rest1 => parseElems fuel (jsonArrSnoc acc v) rest1
      | ']' :: rest1 => some (.arr (jsonArrSnoc acc v), rest1)
      | _ => none
end

/-- `json.loads`: parse one value, allow surrounding whitespace, reject
trailing data.  (A parsed top-level `null` is the value `Json.null` here;
Python returns the object `None`, indistinguishable downstream since every
caller immediately tests truthiness, and `None` and `null` are equally
falsy.) -/
def json_loads (s : String) : Option Json :=
  match parseValue (3 * s.data.length + 4) s.data with
  | none => none
  | some (v, rest) =>
    match skipWs rest with
    | [] => some v
    | _ :: _ => none

/-! ### `extract_json_from_response` (source lines 173–192) -/

/-- Index of the first occurrence of `c`, if any. -/
def firstIdx (c : Char) : List Char → Option Nat
  | [] => none
  | x :: xs =>
    if x = c then some 0 else (firstIdx c xs).map (· + 1)

/-- Index of the last occurrence of `c`, if any. -/
def lastIdx (c : Char) (l : List Char) : Option Nat :=
  (firstIdx c l.reverse).map (fun i => l.length - 1 - i)

/-- `BRACE_RE = re.compile(r"\{.*\}", re.S)` applied with `.search`: the
match (if any) runs from the first `'{'` to the last `'}'` of the text,
which exists exactly when that `'}'` lies beyond that `'{'`. -/
def braceSlice (s : String) : Option String :=
  match firstIdx '\x7b' s.data, lastIdx '\x7d' s.data with
  | some i, some j =>
    if i < j then some ⟨(s.data.drop i).take (j + 1 - i)⟩ else none
  | _, _ => none

/-- The text handed to `json.loads`: strip a case-insensitive leading
`"json"` marker (then `strip()`), then the brace-delimited slice if the
regex matches, the whole remaining text otherwise. -/
def jsonCandidate (raw : String) : String :=
  let r :=
    if startsWithStr (lowerStr raw) "json" then pyStrip (dropStr raw 4) else raw
  match braceSlice r with
  | some s => s
  | none => r

/-- `extract_json_from_response(raw_response)`: candidate selection then
`json.loads`, every parse error mapped to `None`. -/
def extract_json_from_response (raw : String) : Option Json :=
  json_loads (jsonCandidate raw)

/-! ### Python value helpers used by the analysis functions -/

/-- Join with `", "`. -/
def joinComma : List String → String
  | [] => ""
  | [s] => s
  | s :: r :: rest => s ++ ", " ++ joinComma (r :: rest)

/-- Join with `"\n"` (Python `"\n".join(...)`). -/
def joinNl : List String → String
  | [] => ""
  | [s] => s
  | s :: r :: rest => s ++ "\n" ++ joinNl (r :: rest)

/-- Rendering of a parsed JSON number under Python `str()`.  Exact for
the integers that actually occur; a number with a non-zero decimal
exponent is rendered in mantissa-exponent form (best effort — Python
would print a float). -/
def numLit (m e : Int) : String :=
  if e = 0 then toString m else toString m ++ "e" ++ toString e

mutual
/-- Python `repr` of a parsed JSON value. -/
def pyRepr : Json → String
  | .null => "None"
  | .bool true => "True"
  | .bool false => "False"
  | .num m e => numLit m e
  | .str s => "\x27" ++ s ++ "\x27"
  | .arr l => "[" ++ joinComma (pyReprArr l) ++ "]"
  | .obj kvs => "\x7b" ++ joinComma (pyReprObj kvs) ++ "\x7d"
/-- `repr` of each array element. -/
def pyReprArr : JsonArr → List String
  | .nil => []
  | .cons h t => pyRepr h :: pyReprArr t
/-- `repr` of each `key: value` binding. -/
def pyReprObj : JsonObj → List String
  | .nil => []
  | .cons k v t => ("\x27" ++ k ++ "\x27: " ++ pyRepr v) :: pyReprObj t
end

/-- Python `str()` of a parsed JSON value (as used by f-string
interpolation): a string renders as itself, containers via `repr`. -/
def pyStr : Json → String
  | .str s => s
  | j => pyRepr j

/-- The exception raised when the analysed code calls `.get` / `.items()`
on a parsed value that is not a `dict` (Python `AttributeError`). -/
inductive PyErr where
  | attributeError
deriving DecidableEq

/-- Python `data.get(key, default)`; raises on non-dicts. -/
def pyGet (data : Json) (key : String) (dflt : Json) : Except PyErr Json :=
  match data with
  | .obj kvs => .ok ((lookupKey key kvs).getD dflt)
  | _ => .error .attributeError

/-- Python `d.items()`; raises on non-dicts. -/
def pyItems : Json → Except PyErr JsonObj
  | .obj kvs => .ok kvs
  | _ => .error .attributeError

/-- The `f"• {k}: {v}"` lines of `ask_llm`. -/
def bulletLines : JsonObj → List String
  | .nil => []
  | .cons k v t => ("• " ++ k ++ ": " ++ pyStr v) :: bulletLines t

/-- `"\n".join(f"• {k}: {v}" for k, v in d.items())`. -/
def bulletJoin (kvs : JsonObj) : String :=
  joinNl (bulletLines kvs)

/-! ### Prompt templates of the assessment catalog

Verbatim transcriptions of the nine f-string templates (braces written
`\x7b`/`\x7d`, apostrophes `\x27`).  `make_llm_call_with_retry`'s default
system message is `SYSTEM_JSON`. -/

/-- Default `system_content` of `make_llm_call_with_retry`. -/
def SYSTEM_JSON : String := "Respond only with the JSON object."

/-- System message of `ask_expected_evidence`. -/
def SYSTEM_LIST : String := "Respond only with the numbered list."

/-- Prompt of `ask_llm` (completeness, source lines 247–280);
`{", ".join(Config.ELEMENTS)}` is `When, Why, Who, What, Where, How`. -/
def mkCompletenessPrompt (text : String) : String :=
  "\nYou are the world\x27s best professional auditor with decades of experience testing control descriptions for completeness.\n\nGiven the following control description, evaluate it for the presence of six key elements: When, Why, Who, What, Where, How.\n\nFor each element:\n- If present, list it with a short clause (<20 words) referencing how it\x27s reflected in the description.\n- If missing, explain briefly why it\x27s considered missing (e.g., \"no timeline or frequency mentioned\").\n\nThen suggest improvements for each missing element based on the description.\n\nReturn valid JSON in this format:\n\x7b\n  \"present\": \x7b\n    \"Who\": \"...\",\n    \"What\": \"...\",\n    ...\n  \x7d,\n  \"missing\": \x7b\n    \"When\": \"No timeline stated\",\n    \"Where\": \"No tool or system mentioned\",\n    ...\n  \x7d,\n  \"suggestions\": \x7b\n    \"When\": \"Suggest adding a specific timeline or frequency for review\",\n    ...\n  \x7d\n\x7d\n\nControl Description:\n\"\"\"" ++ text ++ "\"\"\"\n\nJSON:\n"

/-- Prompt of `ask_control_objective` (source lines 302–318). -/
def mkObjectivePrompt (risk_desc control_desc : String) : String :=
  "\nGiven the following risk description and control description, answer:\n1. Is the control, as designed, able to mitigate the risk? (Yes/No)\n2. Briefly explain your reasoning (1-2 sentences).\n\nRisk Description:\n" ++ risk_desc ++ "\n\nControl Description:\n" ++ control_desc ++ "\n\nRespond in JSON:\n\x7b\n  \"answer\": \"Yes or No\",\n  \"explanation\": \"...\"\n\x7d\n"

/-- Prompt of `ask_execution_appropriateness` (source lines 331–345). -/
def mkExecutionPrompt (automation risk_desc control_desc : String) : String :=
  "\nGiven the automation type (Automated/Semi-Auto/Manual), risk description, and control description, answer:\n1. Is the control execution appropriate based on the control description and risk description? (Yes/No)\n2. Briefly explain your reasoning (1-2 sentences).\n\nAutomation: " ++ automation ++ "\nRisk Description: " ++ risk_desc ++ "\nControl Description: " ++ control_desc ++ "\n\nRespond in JSON:\n\x7b\n  \"answer\": \"Yes or No\",\n  \"explanation\": \"...\"\n\x7d\n"

/-- Prompt of `ask_type_adequacy` (source lines 358–372). -/
def mkTypePrompt (control_type risk_desc control_desc : String) : String :=
  "\nGiven the control type (Detective/Preventive), risk description, and control description, answer:\n1. Is the control type appropriate based on control description and adequate for the risk it addresses? (Yes/No)\n2. Briefly explain your reasoning (1-2 sentences).\n\nType: " ++ control_type ++ "\nRisk Description: " ++ risk_desc ++ "\nControl Description: " ++ control_desc ++ "\n\nRespond in JSON:\n\x7b\n  \"answer\": \"Yes or No\",\n  \"explanation\": \"...\"\n\x7d\n"

/-- Prompt of `ask_frequency_appropriateness` (source lines 385–399). -/
def mkFrequencyPrompt (frequency risk_desc control_desc : String) : String :=
  "\nGiven the operation frequency, risk description, and control description, answer:\n1. Is the control frequency appropriate based on the control description and adequated for the associated risk? (Yes/No)\n2. Briefly explain your reasoning (1-2 sentences).\n\nFrequency: " ++ frequency ++ "\nRisk Description: " ++ risk_desc ++ "\nControl Description: " ++ control_desc ++ "\n\nRespond in JSON:\n\x7b\n  \"answer\": \"Yes or No\",\n  \"explanation\": \"...\"\n\x7d\n"

/-- Prompt of `ask_system_dependency` (source lines 412–421). -/
def mkSysDepPrompt (control_desc : String) : String :=
  "\nGiven the control description, extract the names of any systems or data sources mentioned. List only the system or data source names (comma-separated if more than one). If none are mentioned, return \"None found\".\n\nControl Description: " ++ control_desc ++ "\n\nRespond in JSON:\n\x7b\n  \"systems\": \"...\"\n\x7d\n"

/-- Prompt of `ask_adaptability` (source lines 434–447). -/
def mkAdaptabilityPrompt (control_desc : String) : String :=
  "\nGiven the following control description, answer:\n1. Does the control ensure that no single individual has end-to-end responsibility for critical transactions so like proper Segregation of duties? (Yes/No)\n2. Briefly explain your reasoning (1-2 sentences).\n\nControl Description:\n" ++ control_desc ++ "\n\nRespond in JSON:\n\x7b\n  \"answer\": \"Yes or No\",\n  \"explanation\": \"...\"\n\x7d\n"

/-- Prompt of `ask_overall_rating` (source lines 460–475).  The `row`
dictionary entries are interpolated with Python `str()`; the
`adaptability` parameter of the source function does not occur in the
template. -/
def mkOverallPrompt (o1 o2 o3 o4 o5 : Json) (present missing : String) : String :=
  "\nGiven the following analysis of a control, provide an overall rating as one of the following: Effective, Partially effective, In-effective. Consider all the information below:\n- Control objective: " ++ pyStr o1 ++ "\n- Execution appropriateness: " ++ pyStr o2 ++ "\n- Type adequacy: " ++ pyStr o3 ++ "\n- Frequency appropriateness: " ++ pyStr o4 ++ "\n- System/data dependencies: " ++ pyStr o5 ++ "\n- Present: " ++ present ++ "\n- Missing: " ++ missing ++ "\n\nReturn a JSON object:\n\x7b\n  \"rating\": \"Effective, Partially effective, or In-effective\",\n  \"explanation\": \"...\"\n\x7d\n"

/-- Prompt of `ask_expected_evidence` (source lines 488–497). -/
def mkEvidencePrompt (control_desc : String) : String :=
  "\nYou are the world\x27s best professional auditor with decades of experience testing control descriptions for completeness.\n\nGiven the following control description, list the types of evidence an auditor or tester would expect to see to verify the control\x27s operation. List each expected evidence as a separate numbered point (1., 2., 3., etc.).\n\nControl Description:\n" ++ control_desc ++ "\n\nRespond with a numbered list of expected evidence types only.\n"

/-! ### The assessment catalog (source lines 233–499)

Each operation renders its prompt, calls the executor, feeds the response
to the parser, tests the parsed value with Python truthiness, and reads
its expected keys with `.get`.  The operations read the retry settings
from the `Config` globals, i.e. `configDefaults`. -/

/-- The per-field failure marker. -/
def LLM_ERROR : String := "LLM error"

/-- `ask_llm` (completeness): returns `(present_str, missing_str,
suggestions_str)`; on call failure, empty response, parse failure or a
falsy parsed value it returns `("", "LLM error", "")`. -/
def ask_llm (client : Client) (text : String) :
    Except PyErr (String × String × String) :=
  match (make_llm_call_with_retry configDefaults client
      (mkCompletenessPrompt text) SYSTEM_JSON).result with
  | none => .ok ("", LLM_ERROR, "")
  | some raw =>
    if raw = "" then .ok ("", LLM_ERROR, "")
    else
      match extract_json_from_response raw with
      | none => .ok ("", LLM_ERROR, "")
      | some data =>
        if pyTruthy data then do
          let present ← pyGet data "present" (.obj .nil)
          let missing ← pyGet data "missing" (.obj .nil)
          let suggestions ← pyGet data "suggestions" (.obj .nil)
          let pi ← pyItems present
          let mi ← pyItems missing
          let si ← pyItems suggestions
          pure (bulletJoin pi, bulletJoin mi, bulletJoin si)
        else .ok ("", LLM_ERROR, "")

/-- `ask_control_objective`: `(answer, explanation)` with per-key
`"LLM error"` defaults. -/
def ask_control_objective (client : Client) (risk_desc control_desc : String) :
    Except PyErr (Json × Json) :=
  match (make_llm_call_with_retry configDefaults client
      (mkObjectivePrompt risk_desc control_desc) SYSTEM_JSON).result with
  | none => .ok (.str LLM_ERROR, .str LLM_ERROR)
  | some raw =>
    if raw = "" then .ok (.str LLM_ERROR, .str LLM_ERROR)
    else
      match extract_json_from_response raw with
      | none => .ok (.str LLM_ERROR, .str LLM_ERROR)
      | some data =>
        if pyTruthy data then do
          let a ← pyGet data "answer" (.str LLM_ERROR)
          let e ← pyGet data "explanation" (.str LLM_ERROR)
          pure (a, e)
        else .ok (.str LLM_ERROR, .str LLM_ERROR)

/-- `ask_execution_appropriateness`. -/
def ask_execution_appropriateness (client : Client)
    (automation risk_desc control_desc : String) : Except PyErr (Json × Json) :=
  match (make_llm_call_with_retry configDefaults client
      (mkExecutionPrompt automation risk_desc control_desc) SYSTEM_JSON).result with
  | none => .ok (.str LLM_ERROR, .str LLM_ERROR)
  | some raw =>
    if raw = "" then .ok (.str LLM_ERROR, .str LLM_ERROR)
    else
      match extract_json_from_response raw with
      | none => .ok (.str LLM_ERROR, .str LLM_ERROR)
      | some data =>
        if pyTruthy data then do
          let a ← pyGet data "answer" (.str LLM_ERROR)
          let e ← pyGet data "explanation" (.str LLM_ERROR)
          pure (a, e)
        else .ok (.str LLM_ERROR, .str LLM_ERROR)

/-- `ask_type_adequacy`. -/
def ask_type_adequacy (client : Client)
    (control_type risk_desc control_desc : String) : Except PyErr (Json × Json) :=
  match (make_llm_call_with_retry configDefaults client
      (mkTypePrompt control_type risk_desc control_desc) SYSTEM_JSON).result with
  | none => .ok (.str LLM_ERROR, .str LLM_ERROR)
  | some raw =>
    if raw = "" then .ok (.str LLM_ERROR, .str LLM_ERROR)
    else
      match extract_json_from_response raw with
      | none => .ok (.str LLM_ERROR, .str LLM_ERROR)
      | some data =>
        if pyTruthy data then do
          let a ← pyGet data "answer" (.str LLM_ERROR)
          let e ← pyGet data "explanation" (.str LLM_ERROR)
          pure (a, e)
        else .ok (.str LLM_ERROR, .str LLM_ERROR)

/-- `ask_frequency_appropriateness`. -/
def ask_frequency_appropriateness (client : Client)
    (frequency risk_desc control_desc : String) : Except PyErr (Json × Json) :=
  match (make_llm_call_with_retry configDefaults client
      (mkFrequencyPrompt frequency risk_desc control_desc) SYSTEM_JSON).result with
  | none => .ok (.str LLM_ERROR, .str LLM_ERROR)
  | some raw =>
    if raw = "" then .ok (.str LLM_ERROR, .str LLM_ERROR)
    else
      match extract_json_from_response raw with
      | none => .ok (.str LLM_ERROR, .str LLM_ERROR)
      | some data =>
        if pyTruthy data then do
          let a ← pyGet data "answer" (.str LLM_ERROR)
          let e ← pyGet data "explanation" (.str LLM_ERROR)
          pure (a, e)
        else .ok (.str LLM_ERROR, .str LLM_ERROR)

/-- `ask_system_dependency`: `(systems, "")`. -/
def ask_system_dependency (client : Client) (control_desc : String) :
    Except PyErr (Json × String) :=
  match (make_llm_call_with_retry configDefaults client
      (mkSysDepPrompt control_desc) SYSTEM_JSON).result with
  | none => .ok (.str LLM_ERROR, "")
  | some raw =>
    if raw = "" then .ok (.str LLM_ERROR, "")
    else
      match extract_json_from_response raw with
      | none => .ok (.str LLM_ERROR, "")
      | some data =>
        if pyTruthy data then do
          let s ← pyGet data "systems" (.str LLM_ERROR)
          pure (s, "")
        else .ok (.str LLM_ERROR, "")

/-- `ask_adaptability` (segregation of duties). -/
def ask_adaptability (client : Client) (control_desc : String) :
    Except PyErr (Json × Json) :=
  match (make_llm_call_with_retry configDefaults client
      (mkAdaptabilityPrompt control_desc) SYSTEM_JSON).result with
  | none => .ok (.str LLM_ERROR, .str LLM_ERROR)
  | some raw =>
    if raw = "" then .ok (.str LLM_ERROR, .str LLM_ERROR)
    else
      match extract_json_from_response raw with
      | none => .ok (.str LLM_ERROR, .str LLM_ERROR)
      | some data =>
        if pyTruthy data then do
          let a ← pyGet data "answer" (.str LLM_ERROR)
          let e ← pyGet data "explanation" (.str LLM_ERROR)
          pure (a, e)
        else .ok (.str LLM_ERROR, .str LLM_ERROR)

/-- `ask_overall_rating`: `(rating, explanation)`.  The five `row` values
and the present/missing text are interpolated into the prompt; the
`adaptability` argument is passed by `process_controls` but never used by
the source function. -/
def ask_overall_rating (client : Client) (o1 o2 o3 o4 o5 : Json)
    (present missing : String) (_adaptability : Json) : Except PyErr (Json × Json) :=
  match (make_llm_call_with_retry configDefaults client
      (mkOverallPrompt o1 o2 o3 o4 o5 present missing) SYSTEM_JSON).result with
  | none => .ok (.str LLM_ERROR, .str LLM_ERROR)
  | some raw =>
    if raw = "" then .ok (.str LLM_ERROR, .str LLM_ERROR)
    else
      match extract_json_from_response raw with
      | none => .ok (.str LLM_ERROR, .str LLM_ERROR)
      | some data =>
        if pyTruthy data then do
          let a ← pyGet data "rating" (.str LLM_ERROR)
          let e ← pyGet data "explanation" (.str LLM_ERROR)
          pure (a, e)
        else .ok (.str LLM_ERROR, .str LLM_ERROR)

/-- `ask_expected_evidence`: the stripped raw response, or `"LLM error"`
on call failure or an empty response; never raises and performs no JSON
parsing. -/
def ask_expected_evidence (client : Client) (control_desc : String) : String :=
  match (make_llm_call_with_retry configDefaults client
      (mkEvidencePrompt control_desc) SYSTEM_LIST).result with
  | none => LLM_ERROR
  | some raw => if raw = "" then LLM_ERROR else pyStrip raw

/-! ### The record processor (`process_controls`, source lines 523–652)

A `ControlRecord` is one validated input row (`load_and_validate_data`
guarantees all required columns exist, so field access never raises and
`df.iterrows()` indices are the positions `0..N-1`).  The loop accumulates
nineteen parallel lists; an exception while processing a record is caught
and every list still at the pre-record length is padded with
`"Processing error"`. -/

/-- One input row with the seven required columns. -/
structure ControlRecord where
  risk : String
  risk_description : String
  control : String
  control_description : String
  automation : String
  detective_preventive : String
  operation_frequency : String

/-- An all-blank record (used only to state theorems via `List.getD`). -/
def blankRecord : ControlRecord := ⟨"", "", "", "", "", "", ""⟩

/-- The marker appended by the per-record exception handler. -/
def PROCESSING_ERROR : String := "Processing error"

/-- The values contributed by one record to the nineteen accumulator
lists, plus the prompts issued for that record in call order (`trace`).
Fields hold parsed values (`Json`) exactly where the Python lists do. -/
structure RecordResult where
  present : String
  missing : String
  suggestions : String
  present_missing : String
  objective_ans : Json
  objective_exp : Json
  exec_ans : Json
  exec_exp : Json
  type_ans : Json
  type_exp : Json
  freq_ans : Json
  freq_exp : Json
  sysdep_ans : Json
  sysdep_exp : String
  adaptability_ans : Json
  adaptability_exp : Json
  overall_rating_ans : Json
  overall_rating_exp : Json
  potential_evidence : String
  trace : List String

/-- All fields set to the `"Processing error"` marker. -/
def peBase : RecordResult where
  present := PROCESSING_ERROR
  missing := PROCESSING_ERROR
  suggestions := PROCESSING_ERROR
  present_missing := PROCESSING_ERROR
  objective_ans := .str PROCESSING_ERROR
  objective_exp := .str PROCESSING_ERROR
  exec_ans := .str PROCESSING_ERROR
  exec_exp := .str PROCESSING_ERROR
  type_ans := .str PROCESSING_ERROR
  type_exp := .str PROCESSING_ERROR
  freq_ans := .str PROCESSING_ERROR
  freq_exp := .str PROCESSING_ERROR
  sysdep_ans := .str PROCESSING_ERROR
  sysdep_exp := PROCESSING_ERROR
  adaptability_ans := .str PROCESSING_ERROR
  adaptability_exp := .str PROCESSING_ERROR
  overall_rating_ans := .str PROCESSING_ERROR
  overall_rating_exp := .str PROCESSING_ERROR
  potential_evidence := PROCESSING_ERROR
  trace := []

/-- The net effect of one iteration of the `process_controls` loop on the
accumulator lists: the nine catalog operations run in order (completeness,
objective, execution, type, frequency, system dependency, adaptability,
overall rating, expected evidence); an exception at any stage leaves the
earlier stages' values in place and every later field (including the
raising stage's) as `"Processing error"`. -/
def recordCells (client : Client) (r : ControlRecord) : RecordResult :=
  let t1 := mkCompletenessPrompt r.control_description
  match ask_llm client r.control_description with
  | .error _ => { peBase with trace := [t1] }
  | .ok (pres, miss, sugg) =>
    let pm := "Present:\n" ++ pres ++ "\n\nMissing:\n" ++ miss
    let t2 := mkObjectivePrompt r.risk_description r.control_description
    match ask_control_objective client r.risk_description r.control_description with
    | .error _ =>
      { peBase with
        present := pres, missing := miss, suggestions := sugg,
        present_missing := pm, trace := [t1, t2] }
    | .ok (o1, oe1) =>
      let t3 := mkExecutionPrompt r.automation r.risk_description r.control_description
      match ask_execution_appropriateness client r.automation r.risk_description
          r.control_description with
      | .error _ =>
        { peBase with
        present := pres, missing := miss, suggestions := sugg,
          present_missing := pm, objective_ans := o1, objective_exp := oe1,
          trace := [t1, t2, t3] }
      | .ok (o2, oe2) =>
        let t4 := mkTypePrompt r.detective_preventive r.risk_description r.control_description
        match ask_type_adequacy client r.detective_preventive r.risk_description
            r.control_description with
        | .error _ =>
          { peBase with
        present := pres, missing := miss, suggestions := sugg,
            present_missing := pm, objective_ans := o1, objective_exp := oe1,
            exec_ans := o2, exec_exp := oe2, trace := [t1, t2, t3, t4] }
        | .ok (o3, oe3) =>
          let t5 := mkFrequencyPrompt r.operation_frequency r.risk_description
            r.control_description
          match ask_frequency_appropriateness client r.operation_frequency
              r.risk_description r.control_description with
          | .error _ =>
            { peBase with
        present := pres, missing := miss, suggestions := sugg,
              present_missing := pm, objective_ans := o1, objective_exp := oe1,
              exec_ans := o2, exec_exp := oe2, type_ans := o3, type_exp := oe3,
              trace := [t1, t2, t3, t4, t5] }
          | .ok (o4, oe4) =>
            let t6 := mkSysDepPrompt r.control_description
            match ask_system_dependency client r.control_description with
            | .error _ =>
              { peBase with
        present := pres, missing := miss, suggestions := sugg,
                present_missing := pm, objective_ans := o1, objective_exp := oe1,
                exec_ans := o2, exec_exp := oe2, type_ans := o3, type_exp := oe3,
                freq_ans := o4, freq_exp := oe4, trace := [t1, t2, t3, t4, t5, t6] }
            | .ok (o5, oe5) =>
              let t7 := mkAdaptabilityPrompt r.control_description
              match ask_adaptability client r.control_description with
              | .error _ =>
                { peBase with
        present := pres, missing := miss, suggestions := sugg,
                  present_missing := pm, objective_ans := o1, objective_exp := oe1,
                  exec_ans := o2, exec_exp := oe2, type_ans := o3, type_exp := oe3,
                  freq_ans := o4, freq_exp := oe4, sysdep_ans := o5, sysdep_exp := oe5,
                  trace := [t1, t2, t3, t4, t5, t6, t7] }
              | .ok (o6, oe6) =>
                let t8 := mkOverallPrompt o1 o2 o3 o4 o5 pres miss
                match ask_overall_rating client o1 o2 o3 o4 o5 pres miss o6 with
                | .error _ =>
                  { peBase with
        present := pres, missing := miss, suggestions := sugg,
                    present_missing := pm, objective_ans := o1, objective_exp := oe1,
                    exec_ans := o2, exec_exp := oe2, type_ans := o3, type_exp := oe3,
                    freq_ans := o4, freq_exp := oe4, sysdep_ans := o5, sysdep_exp := oe5,
                    adaptability_ans := o6, adaptability_exp := oe6,
                    trace := [t1, t2, t3, t4, t5, t6, t7, t8] }
                | .ok (o7, oe7) =>
                  let t9 := mkEvidencePrompt r.control_description
                  let ev := ask_expected_evidence client r.control_description
                  { present := pres, missing := miss, suggestions := sugg,
                    present_missing := pm, objective_ans := o1, objective_exp := oe1,
                    exec_ans := o2, exec_exp := oe2, type_ans := o3, type_exp := oe3,
                    freq_ans := o4, freq_exp := oe4, sysdep_ans := o5, sysdep_exp := oe5,
                    adaptability_ans := o6, adaptability_exp := oe6,
                    overall_rating_ans := o7, overall_rating_exp := oe7,
                    potential_evidence := ev,
                    trace := [t1, t2, t3, t4, t5, t6, t7, t8, t9] }

/-- The nineteen accumulator lists of `process_controls`. -/
structure PCState where
  present_list : List String
  missing_list : List String
  suggestion_list : List String
  present_missing_list : List String
  objective_ans : List Json
  objective_exp : List Json
  exec_ans : List Json
  exec_exp : List Json
  type_ans : List Json
  type_exp : List Json
  freq_ans : List Json
  freq_exp : List Json
  sysdep_ans : List Json
  sysdep_exp : List String
  adaptability_ans : List Json
  adaptability_exp : List Json
  overall_rating_ans : List Json
  overall_rating_exp : List Json
  potential_evidence_list : List String

/-- The empty accumulators (source lines 528–537). -/
def emptyState : PCState :=
  ⟨[], [], [], [], [], [], [], [], [], [], [], [], [], [], [], [], [], [], []⟩

/-- `if len(lst) <= idx: lst.append(err)` — one list of the exception
handler's fill loop. -/
def padTo (idx : Nat) (l : List α) (e : α) : List α :=
  if l.length ≤ idx then l ++ [e] else l

/-- The exception handler of the loop (source lines 602–610): pad every
list still at the pre-record length with `"Processing error"`. -/
def fillErrors (idx : Nat) (st : PCState) : PCState where
  present_list := padTo idx st.present_list PROCESSING_ERROR
  missing_list := padTo idx st.missing_list PROCESSING_ERROR
  suggestion_list := padTo idx st.suggestion_list PROCESSING_ERROR
  present_missing_list := padTo idx st.present_missing_list PROCESSING_ERROR
  objective_ans := padTo idx st.objective_ans (.str PROCESSING_ERROR)
  objective_exp := padTo idx st.objective_exp (.str PROCESSING_ERROR)
  exec_ans := padTo idx st.exec_ans (.str PROCESSING_ERROR)
  exec_exp := padTo idx st.exec_exp (.str PROCESSING_ERROR)
  type_ans := padTo idx st.type_ans (.str PROCESSING_ERROR)
  type_exp := padTo idx st.type_exp (.str PROCESSING_ERROR)
  freq_ans := padTo idx st.freq_ans (.str PROCESSING_ERROR)
  freq_exp := padTo idx st.freq_exp (.str PROCESSING_ERROR)
  sysdep_ans := padTo idx st.sysdep_ans (.str PROCESSING_ERROR)
  sysdep_exp := padTo idx st.sysdep_exp PROCESSING_ERROR
  adaptability_ans := padTo idx st.adaptability_ans (.str PROCESSING_ERROR)
  adaptability_exp := padTo idx st.adaptability_exp (.str PROCESSING_ERROR)
  overall_rating_ans := padTo idx st.overall_rating_ans (.str PROCESSING_ERROR)
  overall_rating_exp := padTo idx st.overall_rating_exp (.str PROCESSING_ERROR)
  potential_evidence_list := padTo idx st.potential_evidence_list PROCESSING_ERROR

/-- One iteration of `for idx, row in df.iterrows()` (source lines
541–610): run the nine operations in order, appending each result as it
arrives; any raised exception transfers to `fillErrors`. -/
def processOne (client : Client) (idx : Nat) (r : ControlRecord) (st : PCState) : PCState :=
  match ask_llm client r.control_description with
  | .error _ => fillErrors idx st
  | .ok (pres, miss, sugg) =>
    let pm := "Present:\n" ++ pres ++ "\n\nMissing:\n" ++ miss
    let st1 := { st with
      present_list := st.present_list ++ [pres],
      missing_list := st.missing_list ++ [miss],
      suggestion_list := st.suggestion_list ++ [sugg],
      present_missing_list := st.present_missing_list ++ [pm] }
    match ask_control_objective client r.risk_description r.control_description with
    | .error _ => fillErrors idx st1
    | .ok (o1, oe1) =>
      let st2 := { st1 with
        objective_ans := st1.objective_ans ++ [o1],
        objective_exp := st1.objective_exp ++ [oe1] }
      match ask_execution_appropriateness client r.automation r.risk_description
          r.control_description with
      | .error _ => fillErrors idx st2
      | .ok (o2, oe2) =>
        let st3 := { st2 with
          exec_ans := st2.exec_ans ++ [o2],
          exec_exp := st2.exec_exp ++ [oe2] }
        match ask_type_adequacy client r.detective_preventive r.risk_description
            r.control_description with
        | .error _ => fillErrors idx st3
        | .ok (o3, oe3) =>
          let st4 := { st3 with
            type_ans := st3.type_ans ++ [o3],
            type_exp := st3.type_exp ++ [oe3] }
          match ask_frequency_appropriateness client r.operation_frequency
              r.risk_description r.control_description with
          | .error _ => fillErrors idx st4
          | .ok (o4, oe4) =>
            let st5 := { st4 with
              freq_ans := st4.freq_ans ++ [o4],
              freq_exp := st4.freq_exp ++ [oe4] }
            match ask_system_dependency client r.control_description with
            | .error _ => fillErrors idx st5
            | .ok (o5, oe5) =>
              let st6 := { st5 with
                sysdep_ans := st5.sysdep_ans ++ [o5],
                sysdep_exp := st5.sysdep_exp ++ [oe5] }
              match ask_adaptability client r.control_description with
              | .error _ => fillErrors idx st6
              | .ok (o6, oe6) =>
                let st7 := { st6 with
                  adaptability_ans := st6.adaptability_ans ++ [o6],
                  adaptability_exp := st6.adaptability_exp ++ [oe6] }
                match ask_overall_rating client o1 o2 o3 o4 o5 pres miss o6 with
                | .error _ => fillErrors idx st7
                | .ok (o7, oe7) =>
                  let st8 := { st7 with
                    overall_rating_ans := st7.overall_rating_ans ++ [o7],
                    overall_rating_exp := st7.overall_rating_exp ++ [oe7] }
                  let ev := ask_expected_evidence client r.control_description
                  { st8 with
                    potential_evidence_list := st8.potential_evidence_list ++ [ev] }

/-- The whole loop, threading the position index. -/
def processLoop (client : Client) : List ControlRecord → Nat → PCState → PCState
  | [], _, st => st
  | r :: rs, idx, st => processLoop client rs (idx + 1) (processOne client idx r st)

/-- `process_controls(client, df)`: the accumulator lists after the loop
(they are then assigned as output columns of the result table). -/
def process_controls (client : Client) (records : List ControlRecord) : PCState :=
  processLoop client records 0 emptyState

/-! ### The output columns (source lines 612–649)

Sixteen new columns are assigned, in this order; the `Present & Missing`
column is renamed to the documentation header at the end.  Cells hold the
appended values verbatim (`Json` where the operation stored a parsed
value, strings injected via `Json.str`). -/

/-- The renamed `Present & Missing` header. -/
def presentMissingHeader : String :=
  "Has the control been formally documented? (When, Why, Who, What, Where and How)"

/-- The output columns added by `process_controls`, in assignment order. -/
def outputColumns : List String :=
  [presentMissingHeader,
   "Suggestions",
   "Control objective: Is the control designed able to mitigate the risk ?",
   "Control objective: Explanation",
   "Is the control execution appropriate for the risk being addressed?",
   "Execution appropriateness: Explanation",
   "Is the control type adequate for the risk it addresses",
   "Type adequacy: Explanation",
   "Is the control frequency appropriate for the associated risk?",
   "Frequency appropriateness: Explanation",
   "System/data dependencies: Are the systems/data sources used reliable and secure?",
   "Adaptability - Is the control adaptable to new risks or process changes?",
   "Adaptability: Explanation",
   "Overall Rating",
   "Overall Rating: Explanation",
   "Potential Evidences Expected Based on Control Description"]

/-- The output cells contributed by one record, keyed by column. -/
def resultRow (c : RecordResult) : List (String × Json) :=
  [(presentMissingHeader, .str c.present_missing),
   ("Suggestions", .str c.suggestions),
   ("Control objective: Is the control designed able to mitigate the risk ?", c.objective_ans),
   ("Control objective: Explanation", c.objective_exp),
   ("Is the control execution appropriate for the risk being addressed?", c.exec_ans),
   ("Execution appropriateness: Explanation", c.exec_exp),
   ("Is the control type adequate for the risk it addresses", c.type_ans),
   ("Type adequacy: Explanation", c.type_exp),
   ("Is the control frequency appropriate for the associated risk?", c.freq_ans),
   ("Frequency appropriateness: Explanation", c.freq_exp),
   ("System/data dependencies: Are the systems/data sources used reliable and secure?", c.sysdep_ans),
   ("Adaptability - Is the control adaptable to new risks or process changes?", c.adaptability_ans),
   ("Adaptability: Explanation", c.adaptability_exp),
   ("Overall Rating", c.overall_rating_ans),
   ("Overall Rating: Explanation", c.overall_rating_exp),
   ("Potential Evidences Expected Based on Control Description", .str c.potential_evidence)]

/-- Row `i` of the output table, read off the accumulator lists (the
column-assignment step; `pandas` requires every list to have exactly the
row count, which the theorems below establish). -/
def stateRow (st : PCState) (i : Nat) : List (String × Json) :=
  [(presentMissingHeader, .str (st.present_missing_list.getD i "")),
   ("Suggestions", .str (st.suggestion_list.getD i "")),
   ("Control objective: Is the control designed able to mitigate the risk ?",
     st.objective_ans.getD i .null),
   ("Control objective: Explanation", st.objective_exp.getD i .null),
   ("Is the control execution appropriate for the risk being addressed?",
     st.exec_ans.getD i .null),
   ("Execution appropriateness: Explanation", st.exec_exp.getD i .null),
   ("Is the control type adequate for the risk it addresses", st.type_ans.getD i .null),
   ("Type adequacy: Explanation", st.type_exp.getD i .null),
   ("Is the control frequency appropriate for the associated risk?",
     st.freq_ans.getD i .null),
   ("Frequency appropriateness: Explanation", st.freq_exp.getD i .null),
   ("System/data dependencies: Are the systems/data sources used reliable and secure?",
     st.sysdep_ans.getD i .null),
   ("Adaptability - Is the control adaptable to new risks or process changes?",
     st.adaptability_ans.getD i .null),
   ("Adaptability: Explanation", st.adaptability_exp.getD i .null),
   ("Overall Rating", st.overall_rating_ans.getD i .null),
   ("Overall Rating: Explanation", st.overall_rating_exp.getD i .null),
   ("Potential Evidences Expected Based on Control Description",
     .str (st.potential_evidence_list.getD i ""))]

/-- The output table: one row per input position. -/
def stateRows (st : PCState) (n : Nat) : List (List (String × Json)) :=
  (List.range n).map (stateRow st)

/-! ### Predicates and concrete stubs used by the theorems -/

/-- Attempt `j` of the per-prompt call raises a transient (retryable)
error. -/
def failsRetryably (call : Nat → LLMOutcome) (j : Nat) : Prop :=
  ∃ e, call j = .failure e ∧ retryableMsg e = true

/-- Characterisation of one recorded sleep: attempt `a` failed, and the
sleep is the capped formula on the rate-limit branch and the uncapped one
on the generic branch (which also requires not being the final attempt). -/
def waitSpec (cfg : RetryConfig) (call : Nat → LLMOutcome) (p : Nat × Nat) : Prop :=
  ∃ e, call p.1 = .failure e ∧
    ((rateLimitMsg (lowerStr e) = true ∧
        p.2 = min (cfg.retry_delay * 2 ^ p.1) cfg.max_retry_delay) ∨
     (rateLimitMsg (lowerStr e) = false ∧ authMsg (lowerStr e) = false ∧
        notFoundMsg (lowerStr e) = false ∧ p.1 < cfg.max_retries - 1 ∧
        p.2 = cfg.retry_delay * 2 ^ p.1))

/-- Every executor call of `client` (any prompt) ends in call failure, an
empty response, or parse failure — the situations `ask_*` maps to its
failure markers. -/
def opChannelFails (client : Client) : Prop :=
  ∀ sys p, (make_llm_call_with_retry configDefaults client p sys).result = none ∨
    ∃ g, (make_llm_call_with_retry configDefaults client p sys).result = some g ∧
      (g = "" ∨ extract_json_from_response g = none)

/-- Every executor call of `client` returns the failure signal `None`. -/
def opCallFails (client : Client) : Prop :=
  ∀ sys p, (make_llm_call_with_retry configDefaults client p sys).result = none

/-- Every executor call of `client` succeeds with non-empty text that
parses to the empty JSON object. -/
def opEmptyObj (client : Client) : Prop :=
  ∀ sys p, ∃ g, (make_llm_call_with_retry configDefaults client p sys).result = some g ∧
    g ≠ "" ∧ extract_json_from_response g = some (.obj .nil)

/-- Every executor call of `client` succeeds with non-empty text that
parses to the (truthy) object `kvs`. -/
def opParsedObj (client : Client) (kvs : JsonObj) : Prop :=
  ∀ sys p, ∃ g, (make_llm_call_with_retry configDefaults client p sys).result = some g ∧
    g ≠ "" ∧ extract_json_from_response g = some (.obj kvs)

/-- Append one record's values to all nineteen accumulator lists. -/
def appendCells (st : PCState) (c : RecordResult) : PCState where
  present_list := st.present_list ++ [c.present]
  missing_list := st.missing_list ++ [c.missing]
  suggestion_list := st.suggestion_list ++ [c.suggestions]
  present_missing_list := st.present_missing_list ++ [c.present_missing]
  objective_ans := st.objective_ans ++ [c.objective_ans]
  objective_exp := st.objective_exp ++ [c.objective_exp]
  exec_ans := st.exec_ans ++ [c.exec_ans]
  exec_exp := st.exec_exp ++ [c.exec_exp]
  type_ans := st.type_ans ++ [c.type_ans]
  type_exp := st.type_exp ++ [c.type_exp]
  freq_ans := st.freq_ans ++ [c.freq_ans]
  freq_exp := st.freq_exp ++ [c.freq_exp]
  sysdep_ans := st.sysdep_ans ++ [c.sysdep_ans]
  sysdep_exp := st.sysdep_exp ++ [c.sysdep_exp]
  adaptability_ans := st.adaptability_ans ++ [c.adaptability_ans]
  adaptability_exp := st.adaptability_exp ++ [c.adaptability_exp]
  overall_rating_ans := st.overall_rating_ans ++ [c.overall_rating_ans]
  overall_rating_exp := st.overall_rating_exp ++ [c.overall_rating_exp]
  potential_evidence_list := st.potential_evidence_list ++ [c.potential_evidence]

/-- All nineteen accumulator lists have length `n` (the loop invariant at
position `n`). -/
def ListsBalanced (st : PCState) (n : Nat) : Prop :=
  st.present_list.length = n ∧ st.missing_list.length = n ∧
  st.suggestion_list.length = n ∧ st.present_missing_list.length = n ∧
  st.objective_ans.length = n ∧ st.objective_exp.length = n ∧
  st.exec_ans.length = n ∧ st.exec_exp.length = n ∧
  st.type_ans.length = n ∧ st.type_exp.length = n ∧
  st.freq_ans.length = n ∧ st.freq_exp.length = n ∧
  st.sysdep_ans.length = n ∧ st.sysdep_exp.length = n ∧
  st.adaptability_ans.length = n ∧ st.adaptability_exp.length = n ∧
  st.overall_rating_ans.length = n ∧ st.overall_rating_exp.length = n ∧
  st.potential_evidence_list.length = n

/-- The accumulator lists spelt out for a whole run: each list is the map
of the corresponding `recordCells` field over the input records. -/
def cellsState (client : Client) (records : List ControlRecord) : PCState where
  present_list := records.map fun r => (recordCells client r).present
  missing_list := records.map fun r => (recordCells client r).missing
  suggestion_list := records.map fun r => (recordCells client r).suggestions
  present_missing_list := records.map fun r => (recordCells client r).present_missing
  objective_ans := records.map fun r => (recordCells client r).objective_ans
  objective_exp := records.map fun r => (recordCells client r).objective_exp
  exec_ans := records.map fun r => (recordCells client r).exec_ans
  exec_exp := records.map fun r => (recordCells client r).exec_exp
  type_ans := records.map fun r => (recordCells client r).type_ans
  type_exp := records.map fun r => (recordCells client r).type_exp
  freq_ans := records.map fun r => (recordCells client r).freq_ans
  freq_exp := records.map fun r => (recordCells client r).freq_exp
  sysdep_ans := records.map fun r => (recordCells client r).sysdep_ans
  sysdep_exp := records.map fun r => (recordCells client r).sysdep_exp
  adaptability_ans := records.map fun r => (recordCells client r).adaptability_ans
  adaptability_exp := records.map fun r => (recordCells client r).adaptability_exp
  overall_rating_ans := records.map fun r => (recordCells client r).overall_rating_ans
  overall_rating_exp := records.map fun r => (recordCells client r).overall_rating_exp
  potential_evidence_list := records.map fun r => (recordCells client r).potential_evidence

/-- Append a whole list of record results to all accumulator lists. -/
def appendAll (st : PCState) (cs : List RecordResult) : PCState where
  present_list := st.present_list ++ cs.map (·.present)
  missing_list := st.missing_list ++ cs.map (·.missing)
  suggestion_list := st.suggestion_list ++ cs.map (·.suggestions)
  present_missing_list := st.present_missing_list ++ cs.map (·.present_missing)
  objective_ans := st.objective_ans ++ cs.map (·.objective_ans)
  objective_exp := st.objective_exp ++ cs.map (·.objective_exp)
  exec_ans := st.exec_ans ++ cs.map (·.exec_ans)
  exec_exp := st.exec_exp ++ cs.map (·.exec_exp)
  type_ans := st.type_ans ++ cs.map (·.type_ans)
  type_exp := st.type_exp ++ cs.map (·.type_exp)
  freq_ans := st.freq_ans ++ cs.map (·.freq_ans)
  freq_exp := st.freq_exp ++ cs.map (·.freq_exp)
  sysdep_ans := st.sysdep_ans ++ cs.map (·.sysdep_ans)
  sysdep_exp := st.sysdep_exp ++ cs.map (·.sysdep_exp)
  adaptability_ans := st.adaptability_ans ++ cs.map (·.adaptability_ans)
  adaptability_exp := st.adaptability_exp ++ cs.map (·.adaptability_exp)
  overall_rating_ans := st.overall_rating_ans ++ cs.map (·.overall_rating_ans)
  overall_rating_exp := st.overall_rating_exp ++ cs.map (·.overall_rating_exp)
  potential_evidence_list := st.potential_evidence_list ++ cs.map (·.potential_evidence)

/-- Stub: every call raises a generic transient error. -/
def cBoom : Client := fun _ _ _ => .failure "boom"

/-- Stub: every call is rate-limited. -/
def cRate : Client := fun _ _ _ => .failure "HTTP 429 Too Many Requests"

/-- Stub: every call raises a generic server error. -/
def cServerErr : Client := fun _ _ _ => .failure "server error"

/-- Stub: every call fails with an authentication error. -/
def cAuth : Client := fun _ _ _ => .failure "Error code: 401 - Unauthorized"

/-- Stub for the startup connection test: authentication failure. -/
def cAuthCall : Nat → LLMOutcome := fun _ => .failure "Error code: 401 - Unauthorized"

/-- Stub: two transient failures, then success (with padding to strip). -/
def cFirstSuccess : Client := fun _ _ a =>
  if a < 2 then .failure "timeout" else .success "  hi "

/-- Stub: every call returns the empty JSON object. -/
def cEmptyObj : Client := fun _ _ _ => .success "\x7b\x7d"

/-- Stub: every call returns an object with only an `answer` key. -/
def cAnswerOnly : Client := fun _ _ _ => .success "\x7b\"answer\": \"Yes\"\x7d"

/-- Stub: every call returns an object with only a partial `present`
sub-object. -/
def cPresentOnly : Client := fun _ _ _ =>
  .success "\x7b\"present\": \x7b\"Who\": \"x\"\x7d\x7d"

/-- Stub: every call returns a well-formed object covering the expected
keys of every JSON operation. -/
def cHappy : Client := fun _ _ _ =>
  .success "\x7b\"answer\": \"Yes\", \"explanation\": \"E\", \"systems\": \"S\", \"rating\": \"R\"\x7d"

/-- A concrete input record. -/
def demoRecord : ControlRecord :=
  ⟨"R1", "rd", "C1", "Manager reviews reports", "Manual", "Detective", "Daily"⟩

/-! ### Lemmas about the retry loop -/

/-- The loop makes at most `fuel` further calls. -/
theorem retryGo_attempts_le (cfg : RetryConfig) (call : Nat → LLMOutcome) :
    ∀ fuel attempt acc, (retryGo cfg call attempt fuel acc).attempts ≤ attempt + fuel := by
  intro fuel
  induction fuel with
  | zero => intro attempt acc; simp [retryGo]
  | succ n ih =>
    intro attempt acc
    simp only [retryGo]
    cases call attempt with
    | success t =>
      show attempt + 1 ≤ attempt + (n + 1)
      omega
    | failure e =>
      dsimp only
      by_cases h1 : rateLimitMsg (lowerStr e) = true
      · rw [if_pos h1]
        exact le_trans (ih (attempt + 1) _) (by omega)
      · rw [if_neg h1]
        by_cases h2 : authMsg (lowerStr e) = true
        · rw [if_pos h2]
          show attempt + 1 ≤ attempt + (n + 1)
          omega
        · rw [if_neg h2]
          by_cases h3 : notFoundMsg (lowerStr e) = true
          · rw [if_pos h3]
            show attempt + 1 ≤ attempt + (n + 1)
            omega
          · rw [if_neg h3]
            by_cases h4 : attempt < cfg.max_retries - 1
            · rw [if_pos h4]
              exact le_trans (ih (attempt + 1) _) (by omega)
            · rw [if_neg h4]
              exact le_trans (ih (attempt + 1) _) (by omega)

/-- If attempt `k` succeeds, the loop never runs past attempt `k`. -/
theorem retryGo_attempts_le_success (cfg : RetryConfig) (call : Nat → LLMOutcome)
    (k : Nat) (t : String) (hk : call k = .success t) :
    ∀ fuel attempt acc, attempt ≤ k →
      (retryGo cfg call attempt fuel acc).attempts ≤ k + 1 := by
  intro fuel
  induction fuel with
  | zero => intro attempt acc h; simp [retryGo]; omega
  | succ n ih =>
    intro attempt acc h
    rcases Nat.lt_or_ge attempt k with hlt | hge
    · simp only [retryGo]
      cases hc : call attempt with
      | success t' =>
        show attempt + 1 ≤ k + 1
        omega
      | failure e =>
        dsimp only
        by_cases h1 : rateLimitMsg (lowerStr e) = true
        · rw [if_pos h1]
          exact ih (attempt + 1) _ hlt
        · rw [if_neg h1]
          by_cases h2 : authMsg (lowerStr e) = true
          · rw [if_pos h2]
            show attempt + 1 ≤ k + 1
            omega
          · rw [if_neg h2]
            by_cases h3 : notFoundMsg (lowerStr e) = true
            · rw [if_pos h3]
              show attempt + 1 ≤ k + 1
              omega
            · rw [if_neg h3]
              by_cases h4 : attempt < cfg.max_retries - 1
              · rw [if_pos h4]
                exact ih (attempt + 1) _ hlt
              · rw [if_neg h4]
                exact ih (attempt + 1) _ hlt
    · have : attempt = k := le_antisymm h hge
      subst this
      simp [retryGo, hk]

/-- First success wins: if every attempt before `k` fails retryably and
attempt `k` (within the budget) succeeds with `t`, the loop returns the
stripped `t` after exactly `k + 1` attempts. -/
theorem retryGo_first_success (cfg : RetryConfig) (call : Nat → LLMOutcome)
    (k : Nat) (t : String) (hk : call k = .success t) :
    ∀ fuel attempt acc, attempt ≤ k → k < attempt + fuel →
      (∀ j, attempt ≤ j → j < k → failsRetryably call j) →
      (retryGo cfg call attempt fuel acc).result = some (pyStrip t) ∧
        (retryGo cfg call attempt fuel acc).attempts = k + 1 := by
  intro fuel
  induction fuel with
  | zero => intro attempt acc h1 h2; omega
  | succ n ih =>
    intro attempt acc h1 h2 h3
    rcases Nat.lt_or_ge attempt k with hlt | hge
    · obtain ⟨e, he, hr⟩ := h3 attempt le_rfl hlt
      simp only [retryGo, he]
      have hstep : ∀ acc', (retryGo cfg call (attempt + 1) n acc').result = some (pyStrip t) ∧
          (retryGo cfg call (attempt + 1) n acc').attempts = k + 1 := by
        intro acc'
        exact ih (attempt + 1) acc' hlt (by omega)
          (fun j hj1 hj2 => h3 j (by omega) hj2)
      simp only [retryableMsg, Bool.or_eq_true, Bool.and_eq_true, Bool.not_eq_true'] at hr
      rcases hr with hr | ⟨ha, hn⟩
      · rw [if_pos hr]
        exact hstep _
      · by_cases hrl : rateLimitMsg (lowerStr e) = true
        · rw [if_pos hrl]
          exact hstep _
        · rw [if_neg hrl, if_neg (by simp [ha]), if_neg (by simp [hn])]
          by_cases hlast : attempt < cfg.max_retries - 1
          · rw [if_pos hlast]
            exact hstep _
          · rw [if_neg hlast]
            exact hstep _
    · have : attempt = k := le_antisymm h1 hge
      subst this
      simp [retryGo, hk]

/-- Exhaustion: if every attempt in the remaining budget fails retryably,
the loop returns `None` after using the whole budget. -/
theorem retryGo_exhaust (cfg : RetryConfig) (call : Nat → LLMOutcome) :
    ∀ fuel attempt acc,
      (∀ j, attempt ≤ j → j < attempt + fuel → failsRetryably call j) →
      (retryGo cfg call attempt fuel acc).result = none ∧
        (retryGo cfg call attempt fuel acc).attempts = attempt + fuel := by
  intro fuel
  induction fuel with
  | zero => intro attempt acc _; simp [retryGo]
  | succ n ih =>
    intro attempt acc h
    obtain ⟨e, he, hr⟩ := h attempt le_rfl (by omega)
    simp only [retryGo, he]
    have hstep : ∀ acc', (retryGo cfg call (attempt + 1) n acc').result = none ∧
        (retryGo cfg call (attempt + 1) n acc').attempts = attempt + (n + 1) := by
      intro acc'
      have := ih (attempt + 1) acc' (fun j hj1 hj2 => h j (by omega) (by omega))
      exact ⟨this.1, by omega⟩
    simp only [retryableMsg, Bool.or_eq_true, Bool.and_eq_true, Bool.not_eq_true'] at hr
    rcases hr with hr | ⟨ha, hn⟩
    · rw [if_pos hr]
      exact hstep _
    · by_cases hrl : rateLimitMsg (lowerStr e) = true
      · rw [if_pos hrl]
        exact hstep _
      · rw [if_neg hrl, if_neg (by simp [ha]), if_neg (by simp [hn])]
        by_cases hlast : attempt < cfg.max_retries - 1
        · rw [if_pos hlast]
          exact hstep _
        · rw [if_neg hlast]
          exact hstep _

/-- Every recorded sleep satisfies `waitSpec`. -/
theorem retryGo_waits (cfg : RetryConfig) (call : Nat → LLMOutcome) :
    ∀ fuel attempt acc, (∀ p ∈ acc, waitSpec cfg call p) →
      ∀ p ∈ (retryGo cfg call attempt fuel acc).waits, waitSpec cfg call p := by
  intro fuel
  induction fuel with
  | zero => intro attempt acc hacc p hp; simp [retryGo] at hp; exact hacc p (by simpa using hp)
  | succ n ih =>
    intro attempt acc hacc p hp
    simp only [retryGo] at hp
    cases hc : call attempt with
    | success t =>
      rw [hc] at hp
      simp at hp
      exact hacc p (by simpa using hp)
    | failure e =>
      rw [hc] at hp
      simp only at hp
      by_cases hrl : rateLimitMsg (lowerStr e) = true
      · rw [if_pos hrl] at hp
        refine ih (attempt + 1) _ ?_ p hp
        intro q hq
        rcases List.mem_cons.mp hq with hq | hq
        · subst hq
          exact ⟨e, hc, Or.inl ⟨hrl, rfl⟩⟩
        · exact hacc q hq
      · rw [if_neg hrl] at hp
        by_cases ha : authMsg (lowerStr e) = true
        · rw [if_pos ha] at hp
          simp at hp
          exact hacc p (by simpa using hp)
        · rw [if_neg ha] at hp
          by_cases hn : notFoundMsg (lowerStr e) = true
          · rw [if_pos hn] at hp
            simp at hp
            exact hacc p (by simpa using hp)
          · rw [if_neg hn] at hp
            by_cases hl : attempt < cfg.max_retries - 1
            · rw [if_pos hl] at hp
              refine ih (attempt + 1) _ ?_ p hp
              intro q hq
              rcases List.mem_cons.mp hq with hq | hq
              · subst hq
                refine ⟨e, hc, Or.inr ⟨?_, ?_, ?_, hl, rfl⟩⟩
                · simpa using hrl
                · simpa using ha
                · simpa using hn
              · exact hacc q hq
            · rw [if_neg hl] at hp
              exact ih (attempt + 1) _ hacc p hp

/-! ### Lemmas about the record-processor loop -/

/-- A list already past the index is left alone by the fill loop. -/
theorem padTo_keep {α : Type} {n : Nat} {l : List α} (x e : α) (h : l.length = n) :
    padTo n (l ++ [x]) e = l ++ [x] := by
  unfold padTo
  rw [if_neg (by rw [List.length_append, List.length_singleton, h]; omega)]

/-- A list still at the index is padded by the fill loop. -/
theorem padTo_pad {α : Type} {n : Nat} {l : List α} (e : α) (h : l.length = n) :
    padTo n l e = l ++ [e] := by
  unfold padTo
  rw [if_pos (le_of_eq h)]

/-- One loop iteration appends exactly the `recordCells` values of the
current record to every accumulator list, whatever the failure point. -/
theorem processOne_eq (client : Client) (idx : Nat) (r : ControlRecord) (st : PCState)
    (h : ListsBalanced st idx) :
    processOne client idx r st = appendCells st (recordCells client r) := by
  obtain ⟨h1, h2, h3, h4, h5, h6, h7, h8, h9, h10, h11, h12, h13, h14, h15, h16, h17,
    h18, h19⟩ := h
  unfold processOne recordCells
  cases ask_llm client r.control_description with
  | error err => 
    simp only [appendCells, fillErrors, peBase, padTo_pad _ h1, padTo_pad _ h2, padTo_pad _ h3, padTo_pad _ h4, padTo_pad _ h5, padTo_pad _ h6, padTo_pad _ h7, padTo_pad _ h8, padTo_pad _ h9, padTo_pad _ h10, padTo_pad _ h11, padTo_pad _ h12, padTo_pad _ h13, padTo_pad _ h14, padTo_pad _ h15, padTo_pad _ h16, padTo_pad _ h17, padTo_pad _ h18, padTo_pad _ h19, padTo_keep _ _ h1, padTo_keep _ _ h2, padTo_keep _ _ h3, padTo_keep _ _ h4, padTo_keep _ _ h5, padTo_keep _ _ h6, padTo_keep _ _ h7, padTo_keep _ _ h8, padTo_keep _ _ h9, padTo_keep _ _ h10, padTo_keep _ _ h11, padTo_keep _ _ h12, padTo_keep _ _ h13, padTo_keep _ _ h14, padTo_keep _ _ h15, padTo_keep _ _ h16, padTo_keep _ _ h17, padTo_keep _ _ h18, padTo_keep _ _ h19]
  | ok v =>
  obtain ⟨pres, miss, sugg⟩ := v
  dsimp only
  cases ask_control_objective client r.risk_description r.control_description with
  | error err => 
    simp only [appendCells, fillErrors, peBase, padTo_pad _ h1, padTo_pad _ h2, padTo_pad _ h3, padTo_pad _ h4, padTo_pad _ h5, padTo_pad _ h6, padTo_pad _ h7, padTo_pad _ h8, padTo_pad _ h9, padTo_pad _ h10, padTo_pad _ h11, padTo_pad _ h12, padTo_pad _ h13, padTo_pad _ h14, padTo_pad _ h15, padTo_pad _ h16, padTo_pad _ h17, padTo_pad _ h18, padTo_pad _ h19, padTo_keep _ _ h1, padTo_keep _ _ h2, padTo_keep _ _ h3, padTo_keep _ _ h4, padTo_keep _ _ h5, padTo_keep _ _ h6, padTo_keep _ _ h7, padTo_keep _ _ h8, padTo_keep _ _ h9, padTo_keep _ _ h10, padTo_keep _ _ h11, padTo_keep _ _ h12, padTo_keep _ _ h13, padTo_keep _ _ h14, padTo_keep _ _ h15, padTo_keep _ _ h16, padTo_keep _ _ h17, padTo_keep _ _ h18, padTo_keep _ _ h19]
  | ok v2 =>
  obtain ⟨o1, oe1⟩ := v2
  dsimp only
  cases ask_execution_appropriateness client r.automation r.risk_description
      r.control_description with
  | error err => 
    simp only [appendCells, fillErrors, peBase, padTo_pad _ h1, padTo_pad _ h2, padTo_pad _ h3, padTo_pad _ h4, padTo_pad _ h5, padTo_pad _ h6, padTo_pad _ h7, padTo_pad _ h8, padTo_pad _ h9, padTo_pad _ h10, padTo_pad _ h11, padTo_pad _ h12, padTo_pad _ h13, padTo_pad _ h14, padTo_pad _ h15, padTo_pad _ h16, padTo_pad _ h17, padTo_pad _ h18, padTo_pad _ h19, padTo_keep _ _ h1, padTo_keep _ _ h2, padTo_keep _ _ h3, padTo_keep _ _ h4, padTo_keep _ _ h5, padTo_keep _ _ h6, padTo_keep _ _ h7, padTo_keep _ _ h8, padTo_keep _ _ h9, padTo_keep _ _ h10, padTo_keep _ _ h11, padTo_keep _ _ h12, padTo_keep _ _ h13, padTo_keep _ _ h14, padTo_keep _ _ h15, padTo_keep _ _ h16, padTo_keep _ _ h17, padTo_keep _ _ h18, padTo_keep _ _ h19]
  | ok v3 =>
  obtain ⟨o2, oe2⟩ := v3
  dsimp only
  cases ask_type_adequacy client r.detective_preventive r.risk_description
      r.control_description with
  | error err => 
    simp only [appendCells, fillErrors, peBase, padTo_pad _ h1, padTo_pad _ h2, padTo_pad _ h3, padTo_pad _ h4, padTo_pad _ h5, padTo_pad _ h6, padTo_pad _ h7, padTo_pad _ h8, padTo_pad _ h9, padTo_pad _ h10, padTo_pad _ h11, padTo_pad _ h12, padTo_pad _ h13, padTo_pad _ h14, padTo_pad _ h15, padTo_pad _ h16, padTo_pad _ h17, padTo_pad _ h18, padTo_pad _ h19, padTo_keep _ _ h1, padTo_keep _ _ h2, padTo_keep _ _ h3, padTo_keep _ _ h4, padTo_keep _ _ h5, padTo_keep _ _ h6, padTo_keep _ _ h7, padTo_keep _ _ h8, padTo_keep _ _ h9, padTo_keep _ _ h10, padTo_keep _ _ h11, padTo_keep _ _ h12, padTo_keep _ _ h13, padTo_keep _ _ h14, padTo_keep _ _ h15, padTo_keep _ _ h16, padTo_keep _ _ h17, padTo_keep _ _ h18, padTo_keep _ _ h19]
  | ok v4 =>
  obtain ⟨o3, oe3⟩ := v4
  dsimp only
  cases ask_frequency_appropriateness client r.operation_frequency r.risk_description
      r.control_description with
  | error err => 
    simp only [appendCells, fillErrors, peBase, padTo_pad _ h1, padTo_pad _ h2, padTo_pad _ h3, padTo_pad _ h4, padTo_pad _ h5, padTo_pad _ h6, padTo_pad _ h7, padTo_pad _ h8, padTo_pad _ h9, padTo_pad _ h10, padTo_pad _ h11, padTo_pad _ h12, padTo_pad _ h13, padTo_pad _ h14, padTo_pad _ h15, padTo_pad _ h16, padTo_pad _ h17, padTo_pad _ h18, padTo_pad _ h19, padTo_keep _ _ h1, padTo_keep _ _ h2, padTo_keep _ _ h3, padTo_keep _ _ h4, padTo_keep _ _ h5, padTo_keep _ _ h6, padTo_keep _ _ h7, padTo_keep _ _ h8, padTo_keep _ _ h9, padTo_keep _ _ h10, padTo_keep _ _ h11, padTo_keep _ _ h12, padTo_keep _ _ h13, padTo_keep _ _ h14, padTo_keep _ _ h15, padTo_keep _ _ h16, padTo_keep _ _ h17, padTo_keep _ _ h18, padTo_keep _ _ h19]
  | ok v5 =>
  obtain ⟨o4, oe4⟩ := v5
  dsimp only
  cases ask_system_dependency client r.control_description with
  | error err => 
    simp only [appendCells, fillErrors, peBase, padTo_pad _ h1, padTo_pad _ h2, padTo_pad _ h3, padTo_pad _ h4, padTo_pad _ h5, padTo_pad _ h6, padTo_pad _ h7, padTo_pad _ h8, padTo_pad _ h9, padTo_pad _ h10, padTo_pad _ h11, padTo_pad _ h12, padTo_pad _ h13, padTo_pad _ h14, padTo_pad _ h15, padTo_pad _ h16, padTo_pad _ h17, padTo_pad _ h18, padTo_pad _ h19, padTo_keep _ _ h1, padTo_keep _ _ h2, padTo_keep _ _ h3, padTo_keep _ _ h4, padTo_keep _ _ h5, padTo_keep _ _ h6, padTo_keep _ _ h7, padTo_keep _ _ h8, padTo_keep _ _ h9, padTo_keep _ _ h10, padTo_keep _ _ h11, padTo_keep _ _ h12, padTo_keep _ _ h13, padTo_keep _ _ h14, padTo_keep _ _ h15, padTo_keep _ _ h16, padTo_keep _ _ h17, padTo_keep _ _ h18, padTo_keep _ _ h19]
  | ok v6 =>
  obtain ⟨o5, oe5⟩ := v6
  dsimp only
  cases ask_adaptability client r.control_description with
  | error err => 
    simp only [appendCells, fillErrors, peBase, padTo_pad _ h1, padTo_pad _ h2, padTo_pad _ h3, padTo_pad _ h4, padTo_pad _ h5, padTo_pad _ h6, padTo_pad _ h7, padTo_pad _ h8, padTo_pad _ h9, padTo_pad _ h10, padTo_pad _ h11, padTo_pad _ h12, padTo_pad _ h13, padTo_pad _ h14, padTo_pad _ h15, padTo_pad _ h16, padTo_pad _ h17, padTo_pad _ h18, padTo_pad _ h19, padTo_keep _ _ h1, padTo_keep _ _ h2, padTo_keep _ _ h3, padTo_keep _ _ h4, padTo_keep _ _ h5, padTo_keep _ _ h6, padTo_keep _ _ h7, padTo_keep _ _ h8, padTo_keep _ _ h9, padTo_keep _ _ h10, padTo_keep _ _ h11, padTo_keep _ _ h12, padTo_keep _ _ h13, padTo_keep _ _ h14, padTo_keep _ _ h15, padTo_keep _ _ h16, padTo_keep _ _ h17, padTo_keep _ _ h18, padTo_keep _ _ h19]
  | ok v7 =>
  obtain ⟨o6, oe6⟩ := v7
  dsimp only
  cases ask_overall_rating client o1 o2 o3 o4 o5 pres miss o6 with
  | error err => 
    simp only [appendCells, fillErrors, peBase, padTo_pad _ h1, padTo_pad _ h2, padTo_pad _ h3, padTo_pad _ h4, padTo_pad _ h5, padTo_pad _ h6, padTo_pad _ h7, padTo_pad _ h8, padTo_pad _ h9, padTo_pad _ h10, padTo_pad _ h11, padTo_pad _ h12, padTo_pad _ h13, padTo_pad _ h14, padTo_pad _ h15, padTo_pad _ h16, padTo_pad _ h17, padTo_pad _ h18, padTo_pad _ h19, padTo_keep _ _ h1, padTo_keep _ _ h2, padTo_keep _ _ h3, padTo_keep _ _ h4, padTo_keep _ _ h5, padTo_keep _ _ h6, padTo_keep _ _ h7, padTo_keep _ _ h8, padTo_keep _ _ h9, padTo_keep _ _ h10, padTo_keep _ _ h11, padTo_keep _ _ h12, padTo_keep _ _ h13, padTo_keep _ _ h14, padTo_keep _ _ h15, padTo_keep _ _ h16, padTo_keep _ _ h17, padTo_keep _ _ h18, padTo_keep _ _ h19]
  | ok v8 =>
  obtain ⟨o7, oe7⟩ := v8
  dsimp only
  simp only [appendCells]

/-- Appending keeps the accumulator lists balanced. -/
theorem appendCells_balanced {st : PCState} {n : Nat} (h : ListsBalanced st n)
    (c : RecordResult) : ListsBalanced (appendCells st c) (n + 1) := by
  obtain ⟨h1, h2, h3, h4, h5, h6, h7, h8, h9, h10, h11, h12, h13, h14, h15, h16, h17,
    h18, h19⟩ := h
  refine ⟨?_, ?_, ?_, ?_, ?_, ?_, ?_, ?_, ?_, ?_, ?_, ?_, ?_, ?_, ?_, ?_, ?_, ?_, ?_⟩ <;>
    simp [appendCells, h1, h2, h3, h4, h5, h6, h7, h8, h9, h10, h11, h12, h13, h14, h15,
      h16, h17, h18, h19]

/-- The loop is the fold of `appendCells` over the per-record values. -/
theorem processLoop_eq (client : Client) :
    ∀ (rs : List ControlRecord) (idx : Nat) (st : PCState), ListsBalanced st idx →
      processLoop client rs idx st = (rs.map (recordCells client)).foldl appendCells st := by
  intro rs
  induction rs with
  | nil => intro idx st _; simp [processLoop]
  | cons r rest ih =>
    intro idx st h
    simp only [processLoop, List.map_cons, List.foldl_cons]
    rw [processOne_eq client idx r st h]
    exact ih (idx + 1) _ (appendCells_balanced h _)

/-- Folding `appendCells` appends all per-record values at once. -/
theorem foldl_appendCells (cs : List RecordResult) :
    ∀ st : PCState, cs.foldl appendCells st = appendAll st cs := by
  induction cs with
  | nil => intro st; simp [appendAll]
  | cons c rest ih =>
    intro st
    simp only [List.foldl_cons, ih]
    simp [appendAll, appendCells, List.append_assoc]

/-- Full characterisation of `process_controls`: every accumulator list is
the map of the corresponding `recordCells` field over the input records,
in input order. -/
theorem process_controls_eq (client : Client) (records : List ControlRecord) :
    process_controls client records = cellsState client records := by
  unfold process_controls
  rw [processLoop_eq client records 0 emptyState
    (by refine ⟨?_, ?_, ?_, ?_, ?_, ?_, ?_, ?_, ?_, ?_, ?_, ?_, ?_, ?_, ?_, ?_, ?_, ?_, ?_⟩ <;>
      simp [emptyState])]
  rw [foldl_appendCells]
  simp [appendAll, emptyState, cellsState, List.map_map, Function.comp]

/-- `getD` through a `map`, inside the length. -/
theorem getD_map_of_lt {α β : Type} (l : List α) (f : α → β) (i : Nat) (d : β) (d' : α)
    (h : i < l.length) : (l.map f).getD i d = f (l.getD i d') := by
  induction l generalizing i with
  | nil => simp at h
  | cons a rest ih =>
    cases i with
    | zero => simp [List.getD]
    | succ n =>
      simp only [List.map_cons, List.getD_cons_succ]
      exact ih n (by simpa using h)

/-- Row `i` of the built table is exactly the `resultRow` of record `i`'s
cell values. -/
theorem stateRow_cells (client : Client) (records : List ControlRecord) (i : Nat)
    (h : i < records.length) :
    stateRow (cellsState client records) i
      = resultRow (recordCells client (records.getD i blankRecord)) := by
  unfold stateRow resultRow cellsState
  simp only [getD_map_of_lt records _ i _ blankRecord h]

/-! ### Short-circuit helper lemmas -/

/-- A non-retryable first failure stops the retry loop after one call,
with no sleeps. -/
theorem retryGo_nonretryable_first (cfg : RetryConfig) (call : Nat → LLMOutcome)
    (e : String) (h0 : call 0 = .failure e) (he : nonRetryableMsg e = true)
    (hm : 1 ≤ cfg.max_retries) :
    retryGo cfg call 0 cfg.max_retries [] = ⟨none, 1, []⟩ := by
  obtain ⟨m, hm'⟩ : ∃ m, cfg.max_retries = m + 1 := ⟨cfg.max_retries - 1, by omega⟩
  rw [hm']
  simp only [retryGo, h0]
  simp only [nonRetryableMsg, Bool.and_eq_true, Bool.not_eq_true', Bool.or_eq_true] at he
  obtain ⟨hr, hao⟩ := he
  rw [if_neg (by simp [hr])]
  by_cases ha : authMsg (lowerStr e) = true
  · rw [if_pos ha]
    rfl
  · rcases hao with ha' | hn
    · exact absurd ha' ha
    · rw [if_neg ha, if_pos hn]
      rfl

/-- Same for the startup connection-test loop: fatal abort after one
attempt. -/
theorem initGo_nonretryable_first (cfg : RetryConfig) (call : Nat → LLMOutcome)
    (e : String) (h0 : call 0 = .failure e) (he : nonRetryableMsg e = true)
    (hm : 1 ≤ cfg.max_retries) :
    initGo cfg call 0 cfg.max_retries [] = ⟨false, 1, []⟩ := by
  obtain ⟨m, hm'⟩ : ∃ m, cfg.max_retries = m + 1 := ⟨cfg.max_retries - 1, by omega⟩
  rw [hm']
  simp only [initGo, h0]
  simp only [nonRetryableMsg, Bool.and_eq_true, Bool.not_eq_true', Bool.or_eq_true] at he
  obtain ⟨hr, hao⟩ := he
  rw [if_neg (by simp [hr])]
  by_cases ha : authMsg (lowerStr e) = true
  · rw [if_pos ha]
    rfl
  · rcases hao with ha' | hn
    · exact absurd ha' ha
    · rw [if_neg ha, if_pos hn]
      rfl

/-- A non-empty object is truthy. -/
theorem pyTruthy_obj_ne_nil {kvs : JsonObj} (h : kvs ≠ .nil) :
    pyTruthy (.obj kvs) = true := by
  cases kvs with
  | nil => exact absurd rfl h
  | cons k v tl => rfl

/-! ### The claims -/

/-- Claim C2, counterexample to the claim as stated: under a configuration
with an 8-attempt budget (base delay 1s, cap 60s) and a client that always
fails with a generic transient error, the sleep recorded before the retry
of attempt 6 is 64 seconds, which is not `min(base_delay * 2^6, max_delay)
= 60` — the generic-transient branch of the source omits the `max_delay`
cap. -/
theorem c2_counterexample :
    (6, 64) ∈ (make_llm_call_with_retry ⟨8, 1, 60⟩ cServerErr "p" "s").waits ∧
      ¬(64 = min ((⟨8, 1, 60⟩ : RetryConfig).retry_delay * 2 ^ 6)
          (⟨8, 1, 60⟩ : RetryConfig).max_retry_delay) := by
  constructor
  · decide
  · decide

/-- Claim C2 (amended): every recorded sleep of the resilient call
executor is, on the rate-limit branch, `min(base_delay * 2^attempt,
max_delay)` and, on the other-transient branch, the uncapped `base_delay *
2^attempt` (only before the final attempt); under the shipped
configuration (5 attempts, base 1.0s, cap 60.0s) the cap never binds, so
every recorded sleep equals `min(base_delay * 2^attempt, max_delay)`. -/
theorem c2_transient_backoff :
    (∀ (cfg : RetryConfig) (client : Client) (sys p : String) (a w : Nat),
        (a, w) ∈ (make_llm_call_with_retry cfg client p sys).waits →
        waitSpec cfg (client sys p) (a, w))
    ∧ (∀ (client : Client) (sys p : String) (a w : Nat),
        (a, w) ∈ (make_llm_call_with_retry configDefaults client p sys).waits →
        w = min (configDefaults.retry_delay * 2 ^ a) configDefaults.max_retry_delay) := by
  constructor
  · intro cfg client sys p a w hmem
    exact retryGo_waits cfg (client sys p) cfg.max_retries 0 [] (by simp) (a, w) hmem
  · intro client sys p a w hmem
    obtain ⟨e, _, hcase⟩ := retryGo_waits configDefaults (client sys p)
      configDefaults.max_retries 0 [] (by simp) (a, w) hmem
    rcases hcase with ⟨_, hw⟩ | ⟨_, _, _, ha, hw⟩
    · exact hw
    · have ha' : a ≤ 3 := by
        have : configDefaults.max_retries - 1 = 4 := by decide
        omega
      have hle : configDefaults.retry_delay * 2 ^ a ≤ configDefaults.max_retry_delay := by
        have hp3 : (2 : Nat) ^ a ≤ 2 ^ 3 := Nat.pow_le_pow_right (by omega) ha'
        have : configDefaults.retry_delay = 1 := by decide
        rw [this, one_mul]
        have : configDefaults.max_retry_delay = 60 := by decide
        omega
      have hw' : w = configDefaults.retry_delay * 2 ^ a := hw
      rw [hw']
      exact (Nat.min_eq_left hle).symm

/-- Witness for C2: a rate-limited client under the shipped configuration
records the sleep `(attempt 0, 1s)`, and the amended formula evaluates to
it. -/
theorem c2_transient_backoff_witness :
    (0, 1) ∈ (make_llm_call_with_retry configDefaults cRate "p" "s").waits ∧
      1 = min (configDefaults.retry_delay * 2 ^ 0) configDefaults.max_retry_delay := by
  have hmem : (0, 1) ∈ (make_llm_call_with_retry configDefaults cRate "p" "s").waits := by
    decide
  exact ⟨hmem, c2_transient_backoff.2 cRate "s" "p" 0 1 hmem⟩

/-- Claim C5: the executor makes at most `max_retries` attempts (default
5); once an attempt succeeds no further attempt is made; if every earlier
attempt failed transiently and attempt `k` (within the budget) succeeds,
the stripped text of attempt `k` is returned after exactly `k + 1`
attempts; and if every attempt in the budget fails transiently the
executor returns the failure signal `None` (a value, not an exception)
after exactly `max_retries` attempts. -/
theorem c5_executor_contract (cfg : RetryConfig) (client : Client) (sys p : String) :
    ((make_llm_call_with_retry cfg client p sys).attempts ≤ cfg.max_retries)
    ∧ (∀ k t, client sys p k = .success t →
        (make_llm_call_with_retry cfg client p sys).attempts ≤ k + 1)
    ∧ (∀ k t, client sys p k = .success t → k < cfg.max_retries →
        (∀ j, j < k → failsRetryably (client sys p) j) →
        (make_llm_call_with_retry cfg client p sys).result = some (pyStrip t) ∧
          (make_llm_call_with_retry cfg client p sys).attempts = k + 1)
    ∧ ((∀ j, j < cfg.max_retries → failsRetryably (client sys p) j) →
        (make_llm_call_with_retry cfg client p sys).result = none ∧
          (make_llm_call_with_retry cfg client p sys).attempts = cfg.max_retries) := by
  refine ⟨?_, ?_, ?_, ?_⟩
  · simpa using retryGo_attempts_le cfg (client sys p) cfg.max_retries 0 []
  · intro k t hk
    exact retryGo_attempts_le_success cfg (client sys p) k t hk cfg.max_retries 0 []
      (Nat.zero_le k)
  · intro k t hk hlt hfail
    exact retryGo_first_success cfg (client sys p) k t hk cfg.max_retries 0 []
      (Nat.zero_le k) (by omega) (fun j _ hj => hfail j hj)
  · intro hfail
    have h := retryGo_exhaust cfg (client sys p) cfg.max_retries 0 []
      (fun j _ hj => hfail j (by omega))
    exact ⟨h.1, by simpa using h.2⟩

/-- Witness for C5: a stub failing twice with timeouts then succeeding
returns the stripped text after 3 attempts; an always-failing stub returns
`None` after all 5 attempts. -/
theorem c5_executor_contract_witness :
    (make_llm_call_with_retry configDefaults cFirstSuccess "p" "s").result = some "hi" ∧
    (make_llm_call_with_retry configDefaults cFirstSuccess "p" "s").attempts = 3 ∧
    (make_llm_call_with_retry configDefaults cBoom "p" "s").result = none ∧
    (make_llm_call_with_retry configDefaults cBoom "p" "s").attempts = 5 := by
  have hfs := (c5_executor_contract configDefaults cFirstSuccess "s" "p").2.2.1 2 "  hi "
    rfl (by decide)
    (fun j hj => ⟨"timeout", by simp [cFirstSuccess, hj], by decide⟩)
  have hex := (c5_executor_contract configDefaults cBoom "s" "p").2.2.2
    (fun j _ => ⟨"boom", rfl, by decide⟩)
  refine ⟨hfs.1.trans (by rfl), hfs.2, hex.1, hex.2.trans (by rfl)⟩

/-- Claim C6: if the first attempt of a call fails with an authentication
or not-found error, no further attempt is made (attempt count 1, no
sleeps): the startup connection validation aborts the run fatally
(`sys.exit`), while a mid-run call returns the failure signal, so the
operation degrades to its error markers and the batch still produces one
row per record. -/
theorem c6_nonretryable_short_circuit (client : Client) (call0 : Nat → LLMOutcome)
    (e1 e2 rd cd : String)
    (hc : ∀ sys p, client sys p 0 = .failure e1)
    (he1 : nonRetryableMsg e1 = true)
    (h0 : call0 0 = .failure e2)
    (he2 : nonRetryableMsg e2 = true) :
    (∀ sys p, make_llm_call_with_retry configDefaults client p sys = ⟨none, 1, []⟩)
    ∧ init_client_test configDefaults call0 = ⟨false, 1, []⟩
    ∧ ask_control_objective client rd cd = .ok (.str LLM_ERROR, .str LLM_ERROR)
    ∧ (∀ records : List ControlRecord,
        (process_controls client records).present_list.length = records.length) := by
  have hret : ∀ sys p, make_llm_call_with_retry configDefaults client p sys = ⟨none, 1, []⟩ := by
    intro sys p
    exact retryGo_nonretryable_first configDefaults (client sys p) e1 (hc sys p) he1
      (by decide)
  refine ⟨hret, ?_, ?_, ?_⟩
  · exact initGo_nonretryable_first configDefaults call0 e2 h0 he2 (by decide)
  · unfold ask_control_objective
    rw [hret SYSTEM_JSON (mkObjectivePrompt rd cd)]
  · intro records
    rw [process_controls_eq]
    simp [cellsState]

/-- Witness for C6: a stub failing with `401 - Unauthorized` on the first
attempt short-circuits to one attempt, aborts the startup test fatally,
and the objective operation degrades to its error markers. -/
theorem c6_nonretryable_short_circuit_witness :
    make_llm_call_with_retry configDefaults cAuth "p" "s" = ⟨none, 1, []⟩ ∧
    init_client_test configDefaults cAuthCall = ⟨false, 1, []⟩ ∧
    ask_control_objective cAuth "rd" "cd" = .ok (.str LLM_ERROR, .str LLM_ERROR) ∧
    (process_controls cAuth [demoRecord]).present_list.length = 1 := by
  have h := c6_nonretryable_short_circuit cAuth cAuthCall
    "Error code: 401 - Unauthorized" "Error code: 401 - Unauthorized" "rd" "cd"
    (fun _ _ => rfl) (by decide) rfl (by decide)
  exact ⟨h.1 "s" "p", h.2.1, h.2.2.1, h.2.2.2 [demoRecord]⟩

/-- Claim C3, counterexample to the claim as stated: with an executor that
always fails, the Completeness operation returns `("", "LLM error", "")` —
the `present` and `suggestions` fields receive the empty string, not the
uniform `"LLM error"` marker. -/
theorem c3_counterexample :
    ask_llm cBoom "cd" = .ok ("", LLM_ERROR, "") ∧ ("" : String) ≠ LLM_ERROR := by
  constructor
  · rfl
  · decide

/-- Claim C3 (amended): on call failure (or an empty response, or parse
failure), every operation returns its failure tuple: the six
answer/explanation-shaped operations and Overall Rating return
`("LLM error", "LLM error")`, Dependency extraction returns
`("LLM error", "")`, Expected evidence returns `"LLM error"` on call
failure, but Completeness returns `("", "LLM error", "")` — the marker
only in the `missing` field. -/
theorem c3_failure_markers (client : Client) (cd rd auto dp freq : String)
    (j1 j2 j3 j4 j5 ja : Json) (pres miss : String) :
    (opChannelFails client →
      ask_llm client cd = .ok ("", LLM_ERROR, "") ∧
      ask_control_objective client rd cd = .ok (.str LLM_ERROR, .str LLM_ERROR) ∧
      ask_execution_appropriateness client auto rd cd
        = .ok (.str LLM_ERROR, .str LLM_ERROR) ∧
      ask_type_adequacy client dp rd cd = .ok (.str LLM_ERROR, .str LLM_ERROR) ∧
      ask_frequency_appropriateness client freq rd cd
        = .ok (.str LLM_ERROR, .str LLM_ERROR) ∧
      ask_system_dependency client cd = .ok (.str LLM_ERROR, "") ∧
      ask_adaptability client cd = .ok (.str LLM_ERROR, .str LLM_ERROR) ∧
      ask_overall_rating client j1 j2 j3 j4 j5 pres miss ja
        = .ok (.str LLM_ERROR, .str LLM_ERROR))
    ∧ (opCallFails client → ask_expected_evidence client cd = LLM_ERROR) := by
  constructor
  · intro h
    refine ⟨?_, ?_, ?_, ?_, ?_, ?_, ?_, ?_⟩
    · unfold ask_llm
      rcases h SYSTEM_JSON (mkCompletenessPrompt cd) with hres | ⟨g, hres, hg⟩
      · rw [hres]
      · rw [hres]
        rcases hg with hg | hx
        · subst hg; simp
        · by_cases hg0 : g = ""
          · simp [hg0]
          · dsimp only
            rw [if_neg hg0, hx]
    · unfold ask_control_objective
      rcases h SYSTEM_JSON (mkObjectivePrompt rd cd) with hres | ⟨g, hres, hg⟩
      · rw [hres]
      · rw [hres]
        rcases hg with hg | hx
        · subst hg; simp
        · by_cases hg0 : g = ""
          · simp [hg0]
          · dsimp only
            rw [if_neg hg0, hx]
    · unfold ask_execution_appropriateness
      rcases h SYSTEM_JSON (mkExecutionPrompt auto rd cd) with hres | ⟨g, hres, hg⟩
      · rw [hres]
      · rw [hres]
        rcases hg with hg | hx
        · subst hg; simp
        · by_cases hg0 : g = ""
          · simp [hg0]
          · dsimp only
            rw [if_neg hg0, hx]
    · unfold ask_type_adequacy
      rcases h SYSTEM_JSON (mkTypePrompt dp rd cd) with hres | ⟨g, hres, hg⟩
      · rw [hres]
      · rw [hres]
        rcases hg with hg | hx
        · subst hg; simp
        · by_cases hg0 : g = ""
          · simp [hg0]
          · dsimp only
            rw [if_neg hg0, hx]
    · unfold ask_frequency_appropriateness
      rcases h SYSTEM_JSON (mkFrequencyPrompt freq rd cd) with hres | ⟨g, hres, hg⟩
      · rw [hres]
      · rw [hres]
        rcases hg with hg | hx
        · subst hg; simp
        · by_cases hg0 : g = ""
          · simp [hg0]
          · dsimp only
            rw [if_neg hg0, hx]
    · unfold ask_system_dependency
      rcases h SYSTEM_JSON (mkSysDepPrompt cd) with hres | ⟨g, hres, hg⟩
      · rw [hres]
      · rw [hres]
        rcases hg with hg | hx
        · subst hg; simp
        · by_cases hg0 : g = ""
          · simp [hg0]
          · dsimp only
            rw [if_neg hg0, hx]
    · unfold ask_adaptability
      rcases h SYSTEM_JSON (mkAdaptabilityPrompt cd) with hres | ⟨g, hres, hg⟩
      · rw [hres]
      · rw [hres]
        rcases hg with hg | hx
        · subst hg; simp
        · by_cases hg0 : g = ""
          · simp [hg0]
          · dsimp only
            rw [if_neg hg0, hx]
    · unfold ask_overall_rating
      rcases h SYSTEM_JSON (mkOverallPrompt j1 j2 j3 j4 j5 pres miss)
        with hres | ⟨g, hres, hg⟩
      · rw [hres]
      · rw [hres]
        rcases hg with hg | hx
        · subst hg; simp
        · by_cases hg0 : g = ""
          · simp [hg0]
          · dsimp only
            rw [if_neg hg0, hx]
  · intro h
    unfold ask_expected_evidence
    rw [h SYSTEM_LIST (mkEvidencePrompt cd)]

/-- Witness for C3: the always-failing stub exercises both parts of the
amended claim. -/
theorem c3_failure_markers_witness :
    ask_control_objective cBoom "rd" "cd" = .ok (.str LLM_ERROR, .str LLM_ERROR) ∧
    ask_system_dependency cBoom "cd" = .ok (.str LLM_ERROR, "") ∧
    ask_expected_evidence cBoom "cd" = LLM_ERROR := by
  have hfail : opCallFails cBoom := by
    intro sys p
    exact (retryGo_exhaust configDefaults (cBoom sys p) configDefaults.max_retries 0 []
      (fun j _ _ => ⟨"boom", rfl, by decide⟩)).1
  have h := c3_failure_markers cBoom "cd" "rd" "a" "d" "f" .null .null .null .null .null
    .null "p" "m"
  have h1 := h.1 (fun sys p => Or.inl (hfail sys p))
  exact ⟨h1.2.1, h1.2.2.2.2.2.1, h.2 hfail⟩

/-- Claim C10: a response that parses successfully to the empty JSON
object `{}` is treated exactly like a parse failure — every operation
returns the same failure markers as for unparseable text, because the
parsed value is tested with Python truthiness (`if not data`), which
conflates the empty mapping with `None`. -/
theorem c10_empty_object (client : Client) (cd rd auto dp freq : String)
    (j1 j2 j3 j4 j5 ja : Json) (pres miss : String)
    (h : opEmptyObj client) :
    ask_llm client cd = .ok ("", LLM_ERROR, "") ∧
    ask_control_objective client rd cd = .ok (.str LLM_ERROR, .str LLM_ERROR) ∧
    ask_execution_appropriateness client auto rd cd
      = .ok (.str LLM_ERROR, .str LLM_ERROR) ∧
    ask_type_adequacy client dp rd cd = .ok (.str LLM_ERROR, .str LLM_ERROR) ∧
    ask_frequency_appropriateness client freq rd cd
      = .ok (.str LLM_ERROR, .str LLM_ERROR) ∧
    ask_system_dependency client cd = .ok (.str LLM_ERROR, "") ∧
    ask_adaptability client cd = .ok (.str LLM_ERROR, .str LLM_ERROR) ∧
    ask_overall_rating client j1 j2 j3 j4 j5 pres miss ja
      = .ok (.str LLM_ERROR, .str LLM_ERROR) := by
  refine ⟨?_, ?_, ?_, ?_, ?_, ?_, ?_, ?_⟩
  · obtain ⟨g, hres, hg0, hx⟩ := h SYSTEM_JSON (mkCompletenessPrompt cd)
    unfold ask_llm
    rw [hres]
    dsimp only
    rw [if_neg hg0, hx]
    rfl
  · obtain ⟨g, hres, hg0, hx⟩ := h SYSTEM_JSON (mkObjectivePrompt rd cd)
    unfold ask_control_objective
    rw [hres]
    dsimp only
    rw [if_neg hg0, hx]
    rfl
  · obtain ⟨g, hres, hg0, hx⟩ := h SYSTEM_JSON (mkExecutionPrompt auto rd cd)
    unfold ask_execution_appropriateness
    rw [hres]
    dsimp only
    rw [if_neg hg0, hx]
    rfl
  · obtain ⟨g, hres, hg0, hx⟩ := h SYSTEM_JSON (mkTypePrompt dp rd cd)
    unfold ask_type_adequacy
    rw [hres]
    dsimp only
    rw [if_neg hg0, hx]
    rfl
  · obtain ⟨g, hres, hg0, hx⟩ := h SYSTEM_JSON (mkFrequencyPrompt freq rd cd)
    unfold ask_frequency_appropriateness
    rw [hres]
    dsimp only
    rw [if_neg hg0, hx]
    rfl
  · obtain ⟨g, hres, hg0, hx⟩ := h SYSTEM_JSON (mkSysDepPrompt cd)
    unfold ask_system_dependency
    rw [hres]
    dsimp only
    rw [if_neg hg0, hx]
    rfl
  · obtain ⟨g, hres, hg0, hx⟩ := h SYSTEM_JSON (mkAdaptabilityPrompt cd)
    unfold ask_adaptability
    rw [hres]
    dsimp only
    rw [if_neg hg0, hx]
    rfl
  · obtain ⟨g, hres, hg0, hx⟩ := h SYSTEM_JSON (mkOverallPrompt j1 j2 j3 j4 j5 pres miss)
    unfold ask_overall_rating
    rw [hres]
    dsimp only
    rw [if_neg hg0, hx]
    rfl

/-- Witness for C10: the stub answering `{}` everywhere yields the parse
failure markers. -/
theorem c10_empty_object_witness :
    ask_llm cEmptyObj "cd" = .ok ("", LLM_ERROR, "") ∧
    ask_control_objective cEmptyObj "rd" "cd" = .ok (.str LLM_ERROR, .str LLM_ERROR) := by
  have h := c10_empty_object cEmptyObj "cd" "rd" "a" "d" "f" .null .null .null .null .null
    .null "p" "m" (fun sys p => ⟨"\x7b\x7d", rfl, by decide, rfl⟩)
  exact ⟨h.1, h.2.1⟩

/-- Claim C4, counterexample to the claim as stated: for the Completeness
operation, a successfully parsed object lacking the `missing` and
`suggestions` keys yields the empty string for those fields, not an error
marker string — the per-key default of Completeness is the empty mapping,
not `"LLM error"`. -/
theorem c4_counterexample :
    ask_llm cPresentOnly "cd" = .ok ("• Who: x", "", "") ∧ ("" : String) ≠ LLM_ERROR := by
  constructor
  · rfl
  · decide

/-- Claim C4 (amended): when the response parses to a non-empty mapping,
every operation succeeds and reads its expected keys individually: the
answer/explanation-shaped operations, Dependency extraction and Overall
Rating default each absent key to the `"LLM error"` marker string, while
Completeness defaults each absent key to the empty mapping, producing
empty-string fields. -/
theorem c4_per_key_defaults (client : Client) (kvs P M S : JsonObj)
    (cd rd auto dp freq : String) (j1 j2 j3 j4 j5 ja : Json) (pres miss : String)
    (h : opParsedObj client kvs) (hne : kvs ≠ .nil)
    (hP : (lookupKey "present" kvs).getD (.obj .nil) = .obj P)
    (hM : (lookupKey "missing" kvs).getD (.obj .nil) = .obj M)
    (hS : (lookupKey "suggestions" kvs).getD (.obj .nil) = .obj S) :
    ask_llm client cd = .ok (bulletJoin P, bulletJoin M, bulletJoin S) ∧
    ask_control_objective client rd cd
      = .ok ((lookupKey "answer" kvs).getD (.str LLM_ERROR),
             (lookupKey "explanation" kvs).getD (.str LLM_ERROR)) ∧
    ask_execution_appropriateness client auto rd cd
      = .ok ((lookupKey "answer" kvs).getD (.str LLM_ERROR),
             (lookupKey "explanation" kvs).getD (.str LLM_ERROR)) ∧
    ask_type_adequacy client dp rd cd
      = .ok ((lookupKey "answer" kvs).getD (.str LLM_ERROR),
             (lookupKey "explanation" kvs).getD (.str LLM_ERROR)) ∧
    ask_frequency_appropriateness client freq rd cd
      = .ok ((lookupKey "answer" kvs).getD (.str LLM_ERROR),
             (lookupKey "explanation" kvs).getD (.str LLM_ERROR)) ∧
    ask_system_dependency client cd
      = .ok ((lookupKey "systems" kvs).getD (.str LLM_ERROR), "") ∧
    ask_adaptability client cd
      = .ok ((lookupKey "answer" kvs).getD (.str LLM_ERROR),
             (lookupKey "explanation" kvs).getD (.str LLM_ERROR)) ∧
    ask_overall_rating client j1 j2 j3 j4 j5 pres miss ja
      = .ok ((lookupKey "rating" kvs).getD (.str LLM_ERROR),
             (lookupKey "explanation" kvs).getD (.str LLM_ERROR)) := by
  have htru := pyTruthy_obj_ne_nil hne
  refine ⟨?_, ?_, ?_, ?_, ?_, ?_, ?_, ?_⟩
  · obtain ⟨g, hres, hg0, hx⟩ := h SYSTEM_JSON (mkCompletenessPrompt cd)
    unfold ask_llm
    rw [hres]
    dsimp only
    rw [if_neg hg0, hx]
    dsimp only
    rw [if_pos htru]
    simp only [pyGet, hP, hM, hS]
    rfl
  · obtain ⟨g, hres, hg0, hx⟩ := h SYSTEM_JSON (mkObjectivePrompt rd cd)
    unfold ask_control_objective
    rw [hres]
    dsimp only
    rw [if_neg hg0, hx]
    dsimp only
    rw [if_pos htru]
    rfl
  · obtain ⟨g, hres, hg0, hx⟩ := h SYSTEM_JSON (mkExecutionPrompt auto rd cd)
    unfold ask_execution_appropriateness
    rw [hres]
    dsimp only
    rw [if_neg hg0, hx]
    dsimp only
    rw [if_pos htru]
    rfl
  · obtain ⟨g, hres, hg0, hx⟩ := h SYSTEM_JSON (mkTypePrompt dp rd cd)
    unfold ask_type_adequacy
    rw [hres]
    dsimp only
    rw [if_neg hg0, hx]
    dsimp only
    rw [if_pos htru]
    rfl
  · obtain ⟨g, hres, hg0, hx⟩ := h SYSTEM_JSON (mkFrequencyPrompt freq rd cd)
    unfold ask_frequency_appropriateness
    rw [hres]
    dsimp only
    rw [if_neg hg0, hx]
    dsimp only
    rw [if_pos htru]
    rfl
  · obtain ⟨g, hres, hg0, hx⟩ := h SYSTEM_JSON (mkSysDepPrompt cd)
    unfold ask_system_dependency
    rw [hres]
    dsimp only
    rw [if_neg hg0, hx]
    dsimp only
    rw [if_pos htru]
    rfl
  · obtain ⟨g, hres, hg0, hx⟩ := h SYSTEM_JSON (mkAdaptabilityPrompt cd)
    unfold ask_adaptability
    rw [hres]
    dsimp only
    rw [if_neg hg0, hx]
    dsimp only
    rw [if_pos htru]
    rfl
  · obtain ⟨g, hres, hg0, hx⟩ := h SYSTEM_JSON (mkOverallPrompt j1 j2 j3 j4 j5 pres miss)
    unfold ask_overall_rating
    rw [hres]
    dsimp only
    rw [if_neg hg0, hx]
    dsimp only
    rw [if_pos htru]
    rfl

/-- Witness for C4: the stub replying only `{"answer": "Yes"}` makes the
objective operation succeed with the real answer plus a marker for the
absent `explanation`, and Completeness yields empty strings. -/
theorem c4_per_key_defaults_witness :
    ask_control_objective cAnswerOnly "rd" "cd" = .ok (.str "Yes", .str LLM_ERROR) ∧
    ask_llm cAnswerOnly "cd" = .ok ("", "", "") := by
  have h := c4_per_key_defaults cAnswerOnly (.cons "answer" (.str "Yes") .nil) .nil .nil
    .nil "cd" "rd" "a" "d" "f" .null .null .null .null .null .null "p" "m"
    (fun sys p => ⟨"\x7b\"answer\": \"Yes\"\x7d", rfl, by decide, rfl⟩)
    (fun hcon => JsonObj.noConfusion hcon) rfl rfl rfl
  exact ⟨h.2.1.trans (by rfl), h.1.trans (by rfl)⟩

/-- A position inside `List.range n` reads back its index. -/
theorem getD_range_of_lt (n i d : Nat) (h : i < n) : (List.range n).getD i d = i := by
  rw [List.getD_eq_getElem?_getD, List.getElem?_range h]
  rfl

/-- Claim C7: the response parser strips a leading case-insensitive
`"json"` marker and parses the greedy first-`{`-to-last-`}` slice (the
whole text when there is no such slice): `"json\n{\"a\":1}"` yields the
mapping `{"a": 1}`, embedded junk around one object still parses, the
greedy slice makes two adjacent objects unparseable, and whenever the
candidate slice is not valid JSON the parser returns the no-result value
instead of raising. -/
theorem c7_extract :
    extract_json_from_response "json\n\x7b\"a\":1\x7d"
      = some (.obj (.cons "a" (.num 1 0) .nil)) ∧
    extract_json_from_response "noise \x7b\"a\": 1\x7d noise"
      = some (.obj (.cons "a" (.num 1 0) .nil)) ∧
    extract_json_from_response "\x7b\"a\":1\x7d \x7b\"b\":2\x7d" = none ∧
    (∀ s : String, json_loads (jsonCandidate s) = none →
      extract_json_from_response s = none) := by
  refine ⟨by rfl, by rfl, by rfl, ?_⟩
  intro s h
  unfold extract_json_from_response
  exact h

/-- Witness for C7: garbage text has an unparseable candidate and the
parser returns the no-result value on it. -/
theorem c7_extract_witness :
    json_loads (jsonCandidate "hello") = none ∧
    extract_json_from_response "hello" = none := by
  have h : json_loads (jsonCandidate "hello") = none := by rfl
  exact ⟨h, c7_extract.2.2.2 "hello" h⟩

/-- Claim C8: for a record whose Completeness operation and five
prerequisite judgment operations (objective, execution, type, frequency,
dependency — and the segregation operation that also precedes it) have
produced results, the Overall Rating prompt is issued eighth, after all of
their prompts, and is built exactly from the five judgment answers and the
completeness present/missing text. -/
theorem c8_overall_rating_order (client : Client) (r : ControlRecord)
    (pres miss sugg : String) (a1 e1 a2 e2 a3 e3 a4 e4 a5 : Json) (e5 : String)
    (a6 e6 : Json)
    (h1 : ask_llm client r.control_description = .ok (pres, miss, sugg))
    (h2 : ask_control_objective client r.risk_description r.control_description
      = .ok (a1, e1))
    (h3 : ask_execution_appropriateness client r.automation r.risk_description
      r.control_description = .ok (a2, e2))
    (h4 : ask_type_adequacy client r.detective_preventive r.risk_description
      r.control_description = .ok (a3, e3))
    (h5 : ask_frequency_appropriateness client r.operation_frequency r.risk_description
      r.control_description = .ok (a4, e4))
    (h6 : ask_system_dependency client r.control_description = .ok (a5, e5))
    (h7 : ask_adaptability client r.control_description = .ok (a6, e6)) :
    (recordCells client r).trace.take 8 =
      [mkCompletenessPrompt r.control_description,
       mkObjectivePrompt r.risk_description r.control_description,
       mkExecutionPrompt r.automation r.risk_description r.control_description,
       mkTypePrompt r.detective_preventive r.risk_description r.control_description,
       mkFrequencyPrompt r.operation_frequency r.risk_description r.control_description,
       mkSysDepPrompt r.control_description,
       mkAdaptabilityPrompt r.control_description,
       mkOverallPrompt a1 a2 a3 a4 a5 pres miss] := by
  unfold recordCells
  rw [h1]
  dsimp only
  rw [h2]
  dsimp only
  rw [h3]
  dsimp only
  rw [h4]
  dsimp only
  rw [h5]
  dsimp only
  rw [h6]
  dsimp only
  rw [h7]
  dsimp only
  cases ask_overall_rating client a1 a2 a3 a4 a5 pres miss a6 with
  | error err => rfl
  | ok v => rfl

/-- Witness for C8: the fixed well-formed stub runs all stages and the
trace begins with the eight prompts in order, the Overall Rating prompt
built from the stub's answers. -/
theorem c8_overall_rating_order_witness :
    (recordCells cHappy demoRecord).trace.take 8 =
      [mkCompletenessPrompt demoRecord.control_description,
       mkObjectivePrompt demoRecord.risk_description demoRecord.control_description,
       mkExecutionPrompt demoRecord.automation demoRecord.risk_description
         demoRecord.control_description,
       mkTypePrompt demoRecord.detective_preventive demoRecord.risk_description
         demoRecord.control_description,
       mkFrequencyPrompt demoRecord.operation_frequency demoRecord.risk_description
         demoRecord.control_description,
       mkSysDepPrompt demoRecord.control_description,
       mkAdaptabilityPrompt demoRecord.control_description,
       mkOverallPrompt (.str "Yes") (.str "Yes") (.str "Yes") (.str "Yes") (.str "S")
         "" ""] :=
  c8_overall_rating_order cHappy demoRecord "" "" "" (.str "Yes") (.str "E")
    (.str "Yes") (.str "E") (.str "Yes") (.str "E") (.str "Yes") (.str "E") (.str "S")
    "" (.str "Yes") (.str "E") rfl rfl rfl rfl rfl rfl rfl

/-- Claim C9: the pipeline is deterministic in its LLM dependency — two
runs of `process_controls` on the same records with the same (stubbed,
deterministic) client produce the same accumulator state and the same
result table.  In this embedding the client is a pure function, so the
absence of any other state source makes the two-run equality definitional.
-/
theorem c9_deterministic (client : Client) (records : List ControlRecord)
    (st1 st2 : PCState)
    (h1 : st1 = process_controls client records)
    (h2 : st2 = process_controls client records) :
    st1 = st2 ∧ stateRows st1 records.length = stateRows st2 records.length := by
  subst h1
  subst h2
  exact ⟨rfl, rfl⟩

/-- Witness for C9: the two-run equality at a concrete client and input.
-/
theorem c9_deterministic_witness :
    process_controls cBoom [demoRecord] = process_controls cBoom [demoRecord] ∧
    stateRows (process_controls cBoom [demoRecord]) 1
      = stateRows (process_controls cBoom [demoRecord]) 1 := by
  have h := c9_deterministic cBoom [demoRecord] (process_controls cBoom [demoRecord])
    (process_controls cBoom [demoRecord]) rfl rfl
  exact ⟨h.1, h.2⟩

/-- Claim C1, counterexample to the claim as stated: the result table has
16 fixed output columns, not 14. -/
theorem c1_counterexample : outputColumns.length ≠ 14 := by decide

/-- Claim C1 (amended): for every input sequence of N records and every
client, the result table has exactly N rows; row `i` is exactly the
`resultRow` of record `i`'s cell values (input order preserved); every row
binds a value — real result or marker string — to each of the fixed 16
output columns, even when processing a record raises an unexpected
exception mid-record (`recordCells` covers every failure point via the
`"Processing error"` fill). -/
theorem c1_result_table (client : Client) (records : List ControlRecord) :
    (stateRows (process_controls client records) records.length).length
      = records.length ∧
    (∀ i, i < records.length →
      (stateRows (process_controls client records) records.length).getD i []
        = resultRow (recordCells client (records.getD i blankRecord))) ∧
    (∀ i, i < records.length →
      ((stateRows (process_controls client records) records.length).getD i []).map
        Prod.fst = outputColumns) ∧
    outputColumns.length = 16 := by
  have hchar := process_controls_eq client records
  refine ⟨?_, ?_, ?_, by decide⟩
  · simp [stateRows]
  · intro i hi
    rw [hchar]
    unfold stateRows
    rw [getD_map_of_lt (List.range records.length) _ i [] 0 (by simpa using hi)]
    rw [getD_range_of_lt _ _ _ hi]
    exact stateRow_cells client records i hi
  · intro i hi
    rw [hchar]
    unfold stateRows
    rw [getD_map_of_lt (List.range records.length) _ i [] 0 (by simpa using hi)]
    rw [getD_range_of_lt _ _ _ hi]
    rw [stateRow_cells client records i hi]
    rfl

/-- Witness for C1: one record processed by an always-failing client still
yields its row with all 16 columns. -/
theorem c1_result_table_witness :
    (0 : Nat) < ([demoRecord] : List ControlRecord).length ∧
    (stateRows (process_controls cBoom [demoRecord])
        ([demoRecord] : List ControlRecord).length).getD 0 []
      = resultRow (recordCells cBoom (([demoRecord] : List ControlRecord).getD 0
          blankRecord)) ∧
    ((stateRows (process_controls cBoom [demoRecord])
        ([demoRecord] : List ControlRecord).length).getD 0 []).map Prod.fst
      = outputColumns := by
  refine ⟨by simp, ?_, ?_⟩
  · exact (c1_result_table cBoom [demoRecord]).2.1 0 (by simp)
  · exact (c1_result_table cBoom [demoRecord]).2.2.1 0 (by simp)
